import Mathlib

/-!
# Verification of the color-mcp core (format detection, conversion, comparison)

Shallow embedding of the Go sources of `InkyQuill/color-mcp`:

* `internal/value_objects.go` — the channel value model (`NewChannelValue`,
  `NewRGBChannel`, `NewLightnessChannel`, `NewChromaChannel`, `NewHueChannel`);
* the color-space transform library (`hslToRGB`, `rgbToHSL`, `hsbToRGB`,
  `rgbToCMYK`, `srgbInverseGamma`, `rgbToOKLCH`, `labToRGB`, `xyzToRGB`, …);
* the format detector and the per-format parsers (`DetectFormat`, `parseHEX`,
  `parseRGB`, `parseHSL`, `parseHSB`, `parseOKLCH`, `parseLAB`, `parseXYZ`,
  `parseHWB`, `parseCMYK`);
* the converter (`Convert` at target `hex`, i.e. `formatHEX`) and the
  comparator (`CompareColors`, `calculateOKLCHDeltaE`, `determineVerdict`,
  `calculateHueDifference`, `calculateContrastRatio`, `getWCAGGrade`).

Go `float64` arithmetic is idealised as exact real arithmetic (`ℝ`); numeric
text is parsed into `ℚ` exactly.  String scanning mirrors the Go regular
expressions pattern by pattern (the patterns are anchored fixed-arity
extractors, so each is rendered as a deterministic maximal-munch scanner over
the character list).
-/

namespace ColorMCP

noncomputable section

/-! ## Numeric text (strconv.ParseFloat on plain decimal literals)

The Go code parses channel fields with `strconv.ParseFloat`.  Every field the
regular expressions capture — and every input the claims mention — is a plain
decimal literal (optional sign, digits, optional fractional part), which
`ParseFloat` reads exactly when the value fits; we model that sublanguage
exactly into `ℚ`. -/

/-- Numeric value of a list of decimal digit characters. -/
def natOfDigits (cs : List Char) : ℕ :=
  cs.foldl (fun a c => 10 * a + (c.toNat - 48)) 0

/-- Lexical split of a plain decimal literal: sign, integer-part value,
fraction-part value and fraction length.  `none` when the text is not of the
form `[+-]?(digits | digits.digits | digits. | .digits)`. -/
def decSplit (cs : List Char) : Option (Bool × ℕ × ℕ × ℕ) :=
  let signed : Bool × List Char :=
    match cs with
    | '-' :: rest => (true, rest)
    | '+' :: rest => (false, rest)
    | _ => (false, cs)
  let ip := signed.2.takeWhile Char.isDigit
  let rest := signed.2.dropWhile Char.isDigit
  match rest with
  | [] =>
    if ip.isEmpty then none else some (signed.1, natOfDigits ip, 0, 0)
  | '.' :: fp =>
    if fp.all Char.isDigit ∧ ¬(ip.isEmpty ∧ fp.isEmpty) then
      some (signed.1, natOfDigits ip, natOfDigits fp, fp.length)
    else none
  | _ => none

/-- Embedding of `strconv.ParseFloat` on plain decimal literals:
optional `+`/`-` sign, then `digits`, `digits.digits`, `digits.` or `.digits`;
anything else is a parse error (`none`).  The value is exact in `ℚ`. -/
def goParseFloat (s : String) : Option ℚ :=
  (decSplit s.toList).map fun t =>
    let mag : ℚ := t.2.1 + (t.2.2.1 : ℚ) / (10 : ℚ) ^ t.2.2.2
    if t.1 then -mag else mag

/-! ## Constants (`internal` constants file) -/

def RGBMax : ℝ := 255.0
def HueMax : ℝ := 360.0
def SaturationMax : ℝ := 100.0
def LightnessMax : ℝ := 100.0
def OKLCH_L_Max : ℝ := 1.0
def OKLCH_C_Max : ℝ := 0.4
def AlphaMin : ℝ := 0.0
def AlphaMax : ℝ := 1.0
def FullCircle : ℝ := 360.0
def OneThird : ℝ := 1 / 3
def TwoThirds : ℝ := 2 / 3
def OneSixth : ℝ := 1 / 6

def sRGBGammaThreshold : ℝ := 0.0031308
def sRGBInverseThreshold : ℝ := 0.04045
def sRGBGammaFactor : ℝ := 12.92
def sRGBGammaPower : ℝ := 1 / 2.4
def sRGBGammaOffset : ℝ := 1.055
def sRGBGammaSubtract : ℝ := 0.055

def labK : ℝ := 29 ^ 3 / 3 ^ 3
def labE : ℝ := 6 ^ 3 / 29 ^ 3

def DeltaEIdentical : ℝ := 0.0
def DeltaEIndistinguishable : ℝ := 0.02
def DeltaESlightlyDifferent : ℝ := 0.10

def WCAGAAANormal : ℝ := 7.0
def WCAGAANormal : ℝ := 4.5
def WCAGAALarge : ℝ := 3.0

/-- D65 illuminant XYZ values (`xyzD65` in the Go source). -/
noncomputable def xyzD65 : Fin 3 → ℝ
  | 0 => 0.3127 / 0.329
  | 1 => 1.0
  | 2 => (1 - 0.3127 - 0.329) / 0.329

/-- `clamp` from the Go source: clamps `v` between `lo` and `hi`
(`if v < min … if v > max …`). -/
noncomputable def clamp (v lo hi : ℝ) : ℝ :=
  if v < lo then lo else if v > hi then hi else v

/-! ## Channel value model (`internal/value_objects.go`) -/

/-- The error cases of the channel constructors: `strconv.ParseFloat` failure
(`invalid channel value`) and the negative-value rejection. -/
inductive ChannelErr
  | notNumeric
  | negativeValue
  deriving DecidableEq

/-- `ChannelValue`: a numeric value that can be absolute or percentage. -/
structure ChannelValue where
  value : ℝ
  isPercent : Bool

/-- `NewChannelValue`: parse, then reject negatives. -/
noncomputable def NewChannelValue (strValue : String) (hasPercent : Bool) :
    Except ChannelErr ChannelValue :=
  match goParseFloat strValue with
  | none => .error .notNumeric
  | some v =>
    if (v : ℝ) < 0 then .error .negativeValue
    else .ok ⟨(v : ℝ), hasPercent⟩

/-- `ChannelValue.AsFraction`. -/
noncomputable def ChannelValue.AsFraction (cv : ChannelValue) : ℝ :=
  if cv.isPercent then cv.value / 100.0 else cv.value

/-- `ChannelValue.As255`. -/
noncomputable def ChannelValue.As255 (cv : ChannelValue) : ℝ :=
  if cv.isPercent then cv.value / 100.0 * RGBMax else cv.value

/-- `RGBChannel`. -/
structure RGBChannel where
  cv : ChannelValue

/-- `NewRGBChannel`. -/
noncomputable def NewRGBChannel (value : String) (hasPercent : Bool) :
    Except ChannelErr RGBChannel :=
  match NewChannelValue value hasPercent with
  | .error e => .error e
  | .ok cv => .ok ⟨cv⟩

/-- `RGBChannel.ToRGB`. -/
noncomputable def RGBChannel.ToRGB (rc : RGBChannel) : ℝ :=
  clamp rc.cv.As255 0 RGBMax

/-- `LightnessChannel` (OKLCH lightness, 0–1 or 0–100%). -/
structure LightnessChannel where
  cv : ChannelValue

/-- `NewLightnessChannel`. -/
noncomputable def NewLightnessChannel (value : String) (hasPercent : Bool) :
    Except ChannelErr LightnessChannel :=
  match NewChannelValue value hasPercent with
  | .error e => .error e
  | .ok cv => .ok ⟨cv⟩

/-- `LightnessChannel.ToFraction`. -/
noncomputable def LightnessChannel.ToFraction (lc : LightnessChannel) : ℝ :=
  clamp lc.cv.AsFraction 0 OKLCH_L_Max

/-- `ChromaChannel` (OKLCH chroma, 0–0.4). -/
structure ChromaChannel where
  value : ℝ

/-- `NewChromaChannel`: parse then clamp to `[0, OKLCH_C_Max]` — the
constructor has no negative-value rejection. -/
noncomputable def NewChromaChannel (value : String) : Except ChannelErr ChromaChannel :=
  match goParseFloat value with
  | none => .error .notNumeric
  | some v => .ok ⟨clamp (v : ℝ) 0 OKLCH_C_Max⟩

/-- `HueChannel` (hue angle, 0–360). -/
structure HueChannel where
  value : ℝ

/-- `NewHueChannel`: parse then clamp to `[0, HueMax]` — the constructor has
no negative-value rejection. -/
noncomputable def NewHueChannel (value : String) : Except ChannelErr HueChannel :=
  match goParseFloat value with
  | none => .error .notNumeric
  | some v => .ok ⟨clamp (v : ℝ) 0 HueMax⟩

/-! ## Color-space transform library (Go transform source file)

`float64` is idealised as `ℝ`.  `math.Pow(x, 3)` is the cube (Go gives the
exact cube for integer exponents, negative bases included); `math.Pow(x, e)`
for fractional `e` and `math.Cbrt`/`math.Sqrt` are real powers/roots — at
every point these are applied the base is non-negative, where Go's `Pow`
agrees with `Real.rpow`. -/

/-- `srgbGamma` (linear → sRGB-encoded). -/
def srgbGamma (v : ℝ) : ℝ :=
  if v ≤ sRGBGammaThreshold then sRGBGammaFactor * v
  else sRGBGammaOffset * v ^ sRGBGammaPower - sRGBGammaSubtract

/-- `srgbInverseGamma` (sRGB-encoded → linear). -/
def srgbInverseGamma (v : ℝ) : ℝ :=
  if v ≤ sRGBInverseThreshold then v / sRGBGammaFactor
  else ((v + sRGBGammaSubtract) / sRGBGammaOffset) ^ (2.4 : ℝ)

/-- `labF`: the CIE LAB forward nonlinearity (`math.Cbrt` above the `labE`
threshold; its argument is positive there). -/
def labF (t : ℝ) : ℝ :=
  if t > labE then t ^ ((1 : ℝ) / 3) else (labK * t + 16) / 116

/-- `cbrt` helper from the Go source (`math.Pow(x, 1.0/3.0)`). -/
def cbrt (x : ℝ) : ℝ := x ^ ((1 : ℝ) / 3)

/-- Truncation toward zero, as Go's `math.Trunc`. -/
def goTrunc (x : ℝ) : ℝ := if x < 0 then (⌈x⌉ : ℝ) else (⌊x⌋ : ℝ)

/-- Go's `math.Mod`: remainder with the sign of the dividend
(`x - Trunc(x/y)*y`). -/
def goMod (x y : ℝ) : ℝ := x - goTrunc (x / y) * y

/-- Go's `math.Round` (half away from zero) followed by conversion to `int`,
as `formatHEX` uses it. -/
def goRound (x : ℝ) : ℤ := if x < 0 then -⌊-x + 1 / 2⌋ else ⌊x + 1 / 2⌋

/-- Go's `math.Atan2 y x`, the angle of the point `(x, y)` in `(-π, π]`. -/
def goAtan2 (y x : ℝ) : ℝ := Complex.arg ⟨x, y⟩

/-- `hueToRGB` helper of the HSL → RGB conversion. -/
def hueToRGB (p q t : ℝ) : ℝ :=
  let t := if t < 0 then t + 1 else t
  let t := if t > 1 then t - 1 else t
  if t < OneSixth then p + (q - p) * 6 * t
  else if t < 0.5 then q
  else if t < TwoThirds then p + (q - p) * (TwoThirds - t) * 6
  else p

/-- `hslToRGB`: h 0–360, s 0–100, l 0–100 → RGB 0–255. -/
def hslToRGB (h s l : ℝ) : ℝ × ℝ × ℝ :=
  let s := s / SaturationMax
  let l := l / LightnessMax
  if s = 0 then (l * RGBMax, l * RGBMax, l * RGBMax)
  else
    let q := if l < 0.5 then l * (1 + s) else l + s - l * s
    let p := 2 * l - q
    let hk := h / FullCircle
    (hueToRGB p q (hk + OneThird) * RGBMax,
     hueToRGB p q hk * RGBMax,
     hueToRGB p q (hk - OneThird) * RGBMax)

/-- `rgbToHSL`: RGB 0–255 → h 0–360, s 0–100, l 0–100. -/
def rgbToHSL (r g b : ℝ) : ℝ × ℝ × ℝ :=
  let r := r / RGBMax
  let g := g / RGBMax
  let b := b / RGBMax
  let mx := max r (max g b)
  let mn := min r (min g b)
  let delta := mx - mn
  let l := (mx + mn) / 2
  if delta = 0 then (0, 0 * SaturationMax, l * LightnessMax)
  else
    let s := if l < 0.5 then delta / (mx + mn) else delta / (2 - mx - mn)
    let h0 := if r = mx then (g - b) / delta
              else if g = mx then 2 + (b - r) / delta
              else 4 + (r - g) / delta
    let h1 := h0 * 60
    let h := if h1 < 0 then h1 + HueMax else h1
    (h, s * SaturationMax, l * LightnessMax)

/-- `hsbToRGB`: h 0–360, s 0–100, v 0–100 → RGB 0–255. -/
def hsbToRGB (h s v : ℝ) : ℝ × ℝ × ℝ :=
  let s := s / SaturationMax
  let v := v / SaturationMax
  let c := v * s
  let hk := h / 60
  let x := c * (1 - |goMod hk 2 - 1|)
  let rgb1 : ℝ × ℝ × ℝ :=
    if hk < 1 then (c, x, 0)
    else if hk < 2 then (x, c, 0)
    else if hk < 3 then (0, c, x)
    else if hk < 4 then (0, x, c)
    else if hk < 5 then (x, 0, c)
    else (c, 0, x)
  let m := v - c
  ((rgb1.1 + m) * RGBMax, (rgb1.2.1 + m) * RGBMax, (rgb1.2.2 + m) * RGBMax)

/-- `rgbToHSB`: RGB 0–255 → h 0–360, s 0–100, v 0–100. -/
def rgbToHSB (r g b : ℝ) : ℝ × ℝ × ℝ :=
  let r := r / RGBMax
  let g := g / RGBMax
  let b := b / RGBMax
  let mx := max r (max g b)
  let mn := min r (min g b)
  let delta := mx - mn
  let v := mx
  let s := if mx = 0 then 0 else delta / mx
  let h :=
    if delta = 0 then 0
    else
      let h0 := if r = mx then (g - b) / delta
                else if g = mx then 2 + (b - r) / delta
                else 4 + (r - g) / delta
      let h1 := h0 * 60
      if h1 < 0 then h1 + HueMax else h1
  (h, s * SaturationMax, v * SaturationMax)

/-- `oklchToRGB` (culori formulas; `math.Pow(·, 3)` is the cube). -/
def oklchToRGB (l c h : ℝ) : ℝ × ℝ × ℝ :=
  let hRad := h * Real.pi / 180
  let a := c * Real.cos hRad
  let bVal := c * Real.sin hRad
  let L := (l + 0.3963377773761749 * a + 0.2158037573099136 * bVal) ^ (3 : ℕ)
  let M := (l - 0.1055613458156586 * a - 0.0638541728258133 * bVal) ^ (3 : ℕ)
  let S := (l - 0.0894841775298119 * a - 1.2914855480194092 * bVal) ^ (3 : ℕ)
  let rLin := 4.0767416360759574 * L - 3.3077115392580616 * M + 0.2309699031821044 * S
  let gLin := -1.2684379732850317 * L + 2.6097573492876887 * M - 0.3413193760026573 * S
  let bLin := -0.0041960761386756 * L - 0.7034186179359362 * M + 1.7076146940746117 * S
  let r := srgbGamma rLin * RGBMax
  let g := srgbGamma gLin * RGBMax
  let b := srgbGamma bLin * RGBMax
  (clamp r 0 RGBMax, clamp g 0 RGBMax, clamp b 0 RGBMax)

/-- `rgbToOKLCH` (culori formulas, with the achromatic fix). -/
def rgbToOKLCH (r g b : ℝ) : ℝ × ℝ × ℝ :=
  let rLin := srgbInverseGamma (r / RGBMax)
  let gLin := srgbInverseGamma (g / RGBMax)
  let bLin := srgbInverseGamma (b / RGBMax)
  let cbrtL := cbrt (0.412221469470763 * rLin + 0.5363325372617348 * gLin + 0.0514459932675022 * bLin)
  let cbrtM := cbrt (0.2119034958178252 * rLin + 0.6806995506452344 * gLin + 0.1073969535369406 * bLin)
  let cbrtS := cbrt (0.0883024591900564 * rLin + 0.2817188391361215 * gLin + 0.6299787016738222 * bLin)
  let l := 0.210454268309314 * cbrtL + 0.7936177747023054 * cbrtM - 0.0040720430116193 * cbrtS
  let a := 1.9779985324311684 * cbrtL - 2.4285922420485799 * cbrtM + 0.450593709617411 * cbrtS
  let bVal := 0.0259040424655478 * cbrtL + 0.7827717124575296 * cbrtM - 0.8086757549230774 * cbrtS
  let a := if r = g ∧ g = b then 0 else a
  let bVal := if r = g ∧ g = b then 0 else bVal
  let c := Real.sqrt (a * a + bVal * bVal)
  let h := goAtan2 bVal a * 180 / Real.pi
  let h := if h < 0 then h + HueMax else h
  (l, c, h)

/-- `labToRGB`: CIE LAB → XYZ (inverse nonlinearity) → linear RGB → gamma →
clamp. -/
def labToRGB (lVal a bVal : ℝ) : ℝ × ℝ × ℝ :=
  let y := (lVal + 16) / 116
  let x := y + a / 500
  let z := y - bVal / 200
  let fInv : ℝ → ℝ := fun f =>
    let f3 := f * f * f
    if f3 > labE then f3 else (116 * f - 16) / labK
  let x := xyzD65 0 * fInv x
  let y := xyzD65 1 * fInv y
  let z := xyzD65 2 * fInv z
  let rLin := 3.240969941904521 * x - 1.537383177570093 * y - 0.498610760293 * z
  let gLin := -0.96924363628087 * x + 1.8759675015077202 * y + 0.041555057407175 * z
  let bLin := 0.055630079696993 * x - 0.20397695888897 * y + 1.0569715142428786 * z
  let r := srgbGamma rLin * RGBMax
  let g := srgbGamma gLin * RGBMax
  let b := srgbGamma bLin * RGBMax
  (clamp r 0 RGBMax, clamp g 0 RGBMax, clamp b 0 RGBMax)

/-- `rgbToLAB` (with the achromatic fix). -/
def rgbToLAB (r g b : ℝ) : ℝ × ℝ × ℝ :=
  let rLin := srgbInverseGamma (r / RGBMax)
  let gLin := srgbInverseGamma (g / RGBMax)
  let bLin := srgbInverseGamma (b / RGBMax)
  let x := 0.41239079926595934 * rLin + 0.357584339383878 * gLin + 0.1804807884018343 * bLin
  let y := 0.21263900587151027 * rLin + 0.715168678767756 * gLin + 0.07219231536073371 * bLin
  let z := 0.019330818715591841 * rLin + 0.11919477979462587 * gLin + 0.9505321522496607 * bLin
  let fx := labF (x / xyzD65 0)
  let fy := labF (y / xyzD65 1)
  let fz := labF (z / xyzD65 2)
  let l := 116 * fy - 16
  let a := 500 * (fx - fy)
  let bVal := 200 * (fy - fz)
  let a := if r = g ∧ g = b then 0 else a
  let bVal := if r = g ∧ g = b then 0 else bVal
  (l, a, bVal)

/-- `xyzToRGB`. -/
def xyzToRGB (x y z : ℝ) : ℝ × ℝ × ℝ :=
  let rLin := 3.240969941904521 * x - 1.537383177570093 * y - 0.498610760293 * z
  let gLin := -0.96924363628087 * x + 1.8759675015077202 * y + 0.041555057407175 * z
  let bLin := 0.055630079696993 * x - 0.20397695888897 * y + 1.0569715142428786 * z
  let r := srgbGamma rLin * RGBMax
  let g := srgbGamma gLin * RGBMax
  let b := srgbGamma bLin * RGBMax
  (clamp r 0 RGBMax, clamp g 0 RGBMax, clamp b 0 RGBMax)

/-- `rgbToXYZ`. -/
def rgbToXYZ (r g b : ℝ) : ℝ × ℝ × ℝ :=
  let rLin := srgbInverseGamma (r / RGBMax)
  let gLin := srgbInverseGamma (g / RGBMax)
  let bLin := srgbInverseGamma (b / RGBMax)
  (0.41239079926595934 * rLin + 0.357584339383878 * gLin + 0.1804807884018343 * bLin,
   0.21263900587151027 * rLin + 0.715168678767756 * gLin + 0.07219231536073371 * bLin,
   0.019330818715591841 * rLin + 0.11919477979462587 * gLin + 0.9505321522496607 * bLin)

/-- `hwbToRGB`. -/
def hwbToRGB (h w bVal : ℝ) : ℝ × ℝ × ℝ :=
  let w := w / LightnessMax
  let bVal := bVal / LightnessMax
  let rgb := hslToRGB h SaturationMax (LightnessMax / 2)
  let r := rgb.1 / RGBMax * (1 - w - bVal) + w
  let g := rgb.2.1 / RGBMax * (1 - w - bVal) + w
  let b := rgb.2.2 / RGBMax * (1 - w - bVal) + w
  (r * RGBMax, g * RGBMax, b * RGBMax)

/-- `rgbToHWB`. -/
def rgbToHWB (r g b : ℝ) : ℝ × ℝ × ℝ :=
  let h := (rgbToHSL r g b).1
  let mn := min (r / RGBMax) (min (g / RGBMax) (b / RGBMax))
  let mx := max (r / RGBMax) (max (g / RGBMax) (b / RGBMax))
  (h, mn * LightnessMax, (1 - mx) * LightnessMax)

/-- `cmykToRGB`: c, m, y, k 0–100 → RGB 0–255. -/
def cmykToRGB (c m y k : ℝ) : ℝ × ℝ × ℝ :=
  let c := c / SaturationMax
  let m := m / SaturationMax
  let y := y / SaturationMax
  let k := k / SaturationMax
  let r := (1 - c) * (1 - k) * RGBMax
  let g := (1 - m) * (1 - k) * RGBMax
  let b := (1 - y) * (1 - k) * RGBMax
  (clamp r 0 RGBMax, clamp g 0 RGBMax, clamp b 0 RGBMax)

/-- `rgbToCMYK`: RGB 0–255 → c, m, y, k 0–100; the k = 1 (pure black)
degenerate case forces c = m = y = 0. -/
def rgbToCMYK (r g b : ℝ) : ℝ × ℝ × ℝ × ℝ :=
  let r := 1 - r / RGBMax
  let g := 1 - g / RGBMax
  let b := 1 - b / RGBMax
  let k := min r (min g b)
  let c := (r - k) / (1 - k)
  let m := (g - k) / (1 - k)
  let y := (b - k) / (1 - k)
  let cmy : ℝ × ℝ × ℝ := if k = 1 then (0, 0, 0) else (c, m, y)
  (cmy.1 * SaturationMax, cmy.2.1 * SaturationMax, cmy.2.2 * SaturationMax,
   k * SaturationMax)

/-! ## Canonical color data model -/

/-- `ColorFormat`: the closed enumeration of the twelve format tags. -/
inductive ColorFormat
  | hex | rgb | rgba | hsl | hsla | hsb | hsv | oklch | lab | xyz | hwb | cmyk
  deriving DecidableEq

/-- `Color`: canonical RGB + alpha (R, G, B in 0–255, A in 0–1 by intent). -/
structure Color where
  R : ℝ
  G : ℝ
  B : ℝ
  A : ℝ

/-- `ColorData`: a parsed color with its detected format and original text. -/
structure ColorData where
  Color : Color
  Format : ColorFormat
  Original : String

/-! ## Grammar matchers (the Go regex patterns, rendered as scanners)

Each Go pattern is an anchored fixed-arity field extractor; each is rendered
as a deterministic maximal-munch scanner over the character list that accepts
the same language and extracts the same capture groups.  `\s` is RE2's
`[\t\n\f\r ]`. -/

/-- RE2 `\s`. -/
def goSpace (c : Char) : Bool :=
  c = ' ' ∨ c = '\t' ∨ c = '\n' ∨ c = '\x0c' ∨ c = '\r'

/-- `\s*`. -/
def skipWs (cs : List Char) : List Char := cs.dropWhile goSpace

/-- `\s+`. -/
def skipWs1 (cs : List Char) : Option (List Char) :=
  if (cs.takeWhile goSpace).isEmpty then none else some (cs.dropWhile goSpace)

/-- One expected literal character. -/
def expectChar (c : Char) (cs : List Char) : Option (List Char) :=
  match cs with
  | c' :: rest => if c' = c then some rest else none
  | _ => none

/-- `[0-9]+\.?[0-9]*` (maximal munch). -/
def numTok1 (cs : List Char) : Option (String × List Char) :=
  let ds := cs.takeWhile Char.isDigit
  let rest := cs.dropWhile Char.isDigit
  if ds.isEmpty then none
  else
    match rest with
    | '.' :: rest2 =>
      let fs := rest2.takeWhile Char.isDigit
      some (String.mk (ds ++ '.' :: fs), rest2.dropWhile Char.isDigit)
    | _ => some (String.mk ds, rest)

/-- `[0-9]*\.?[0-9]+` (maximal munch; a dot not followed by a digit is left
unconsumed, as the backtracking regex would). -/
def numTok2 (cs : List Char) : Option (String × List Char) :=
  let ds := cs.takeWhile Char.isDigit
  let rest := cs.dropWhile Char.isDigit
  match rest with
  | '.' :: rest2 =>
    let fs := rest2.takeWhile Char.isDigit
    if fs.isEmpty then
      if ds.isEmpty then none else some (String.mk ds, rest)
    else some (String.mk (ds ++ '.' :: fs), rest2.dropWhile Char.isDigit)
  | _ => if ds.isEmpty then none else some (String.mk ds, rest)

/-- `-?[0-9]*\.?[0-9]+`. -/
def signedNumTok2 (cs : List Char) : Option (String × List Char) :=
  match cs with
  | '-' :: rest => (numTok2 rest).map fun t => (String.mk ('-' :: t.1.toList), t.2)
  | _ => numTok2 cs

/-- `(%?)`. -/
def percentOpt (cs : List Char) : Bool × List Char :=
  match cs with
  | '%' :: rest => (true, rest)
  | _ => (false, cs)

/-- Hexadecimal digit test (`[0-9a-fA-F]`). -/
def isHexDigit (c : Char) : Bool :=
  ('0' ≤ c ∧ c ≤ '9') ∨ ('a' ≤ c ∧ c ≤ 'f') ∨ ('A' ≤ c ∧ c ≤ 'F')

/-- `hexPattern`: `^#([0-9a-fA-F]{3}|{4}|{6}|{8})$`. -/
def hexMatch (s : String) : Bool :=
  match s.toList with
  | '#' :: rest =>
    rest.all isHexDigit ∧
      (rest.length = 3 ∨ rest.length = 4 ∨ rest.length = 6 ∨ rest.length = 8)
  | _ => false

/-- The optional trailing `(?:,\s*([0-9]*\.?[0-9]+)\s*)?\)$` of the
comma-separated grammars: an optional comma-alpha field, the closing
parenthesis and end of input. -/
def commaAlphaEnd (cs : List Char) : Option (Option String) :=
  match cs with
  | ',' :: rest => do
    let (a, rest) ← numTok2 (skipWs rest)
    let rest ← expectChar ')' (skipWs rest)
    if rest.isEmpty then pure (some a) else none
  | _ => do
    let rest ← expectChar ')' cs
    if rest.isEmpty then pure none else none

/-- The optional trailing `\s*(?:/\s*([0-9]*\.?[0-9]+)\s*)?\)$` of the
space-separated grammars: an optional slash-alpha field, the closing
parenthesis and end of input. -/
def slashAlphaEnd (cs : List Char) : Option (Option String) :=
  match skipWs cs with
  | '/' :: rest => do
    let (a, rest) ← numTok2 (skipWs rest)
    let rest ← expectChar ')' (skipWs rest)
    if rest.isEmpty then pure (some a) else none
  | rest => do
    let rest ← expectChar ')' rest
    if rest.isEmpty then pure none else none

/-- `rgbPattern`: `^rgba?\s*\(\s*NUM1(%?)\s*,\s*NUM1(%?)\s*,\s*NUM1(%?)\s*`
`(?:,\s*NUM2\s*)?\)$` (case-sensitive). -/
def rgbMatch (s : String) :
    Option ((String × Bool) × (String × Bool) × (String × Bool) × Option String) := do
  let cs ← match s.toList with
    | 'r' :: 'g' :: 'b' :: 'a' :: rest => some rest
    | 'r' :: 'g' :: 'b' :: rest => some rest
    | _ => none
  let cs ← expectChar '(' (skipWs cs)
  let (v1, cs) ← numTok1 (skipWs cs)
  let (p1, cs) := percentOpt cs
  let cs ← expectChar ',' (skipWs cs)
  let (v2, cs) ← numTok1 (skipWs cs)
  let (p2, cs) := percentOpt cs
  let cs ← expectChar ',' (skipWs cs)
  let (v3, cs) ← numTok1 (skipWs cs)
  let (p3, cs) := percentOpt cs
  let al ← commaAlphaEnd (skipWs cs)
  pure ((v1, p1), (v2, p2), (v3, p3), al)

/-- `hslPattern`: `^hsla?\s*\(\s*NUM1\s*,\s*NUM1%\s*,\s*NUM1%\s*`
`(?:,\s*NUM2\s*)?\)$` (case-sensitive). -/
def hslMatch (s : String) : Option (String × String × String × Option String) := do
  let cs ← match s.toList with
    | 'h' :: 's' :: 'l' :: 'a' :: rest => some rest
    | 'h' :: 's' :: 'l' :: rest => some rest
    | _ => none
  let cs ← expectChar '(' (skipWs cs)
  let (h, cs) ← numTok1 (skipWs cs)
  let cs ← expectChar ',' (skipWs cs)
  let (sv, cs) ← numTok1 (skipWs cs)
  let cs ← expectChar '%' cs
  let cs ← expectChar ',' (skipWs cs)
  let (l, cs) ← numTok1 (skipWs cs)
  let cs ← expectChar '%' cs
  let al ← commaAlphaEnd (skipWs cs)
  pure (h, sv, l, al)

/-- `hsbPattern`: `(?i)^hs[bcv]\s*\(\s*NUM1\s*,\s*NUM1%\s*,\s*NUM1%\s*`
`(?:,\s*NUM2\s*)?\)$`. -/
def hsbMatch (s : String) : Option (String × String × String × Option String) := do
  let cs ← match s.toList with
    | c0 :: c1 :: c2 :: rest =>
      if c0.toLower = 'h' ∧ c1.toLower = 's' ∧
          (c2.toLower = 'b' ∨ c2.toLower = 'c' ∨ c2.toLower = 'v') then
        some rest
      else none
    | _ => none
  let cs ← expectChar '(' (skipWs cs)
  let (h, cs) ← numTok1 (skipWs cs)
  let cs ← expectChar ',' (skipWs cs)
  let (sv, cs) ← numTok1 (skipWs cs)
  let cs ← expectChar '%' cs
  let cs ← expectChar ',' (skipWs cs)
  let (v, cs) ← numTok1 (skipWs cs)
  let cs ← expectChar '%' cs
  let al ← commaAlphaEnd (skipWs cs)
  pure (h, sv, v, al)

/-- Case-insensitive literal keyword. -/
def keywordCI (kw : List Char) (cs : List Char) : Option (List Char) :=
  match kw, cs with
  | [], rest => some rest
  | k :: kt, c :: ct => if c.toLower = k then keywordCI kt ct else none
  | _ :: _, [] => none

/-- `oklchPattern`: `(?i)^oklch\s*\(\s*NUM2(%?)\s+NUM2(?:\s+NUM2)?\s*`
`(?:/\s*NUM2\s*)?\)$`. -/
def oklchMatch (s : String) :
    Option ((String × Bool) × String × Option String × Option String) := do
  let cs ← keywordCI ['o', 'k', 'l', 'c', 'h'] s.toList
  let cs ← expectChar '(' (skipWs cs)
  let (l, cs) ← numTok2 (skipWs cs)
  let (lp, cs) := percentOpt cs
  let cs ← skipWs1 cs
  let (c, cs) ← numTok2 cs
  let hue : Option String × List Char :=
    match (do let r ← skipWs1 cs; numTok2 r : Option (String × List Char)) with
    | some (h, rest) => (some h, rest)
    | none => (none, cs)
  let al ← slashAlphaEnd hue.2
  pure ((l, lp), c, hue.1, al)

/-- `labPattern`: `(?i)^lab\s*\(\s*NUM2\s+(-?NUM2)\s+(-?NUM2)\s*`
`(?:/\s*NUM2\s*)?\)$`. -/
def labMatch (s : String) : Option (String × String × String × Option String) := do
  let cs ← keywordCI ['l', 'a', 'b'] s.toList
  let cs ← expectChar '(' (skipWs cs)
  let (l, cs) ← numTok2 (skipWs cs)
  let cs ← skipWs1 cs
  let (a, cs) ← signedNumTok2 cs
  let cs ← skipWs1 cs
  let (b, cs) ← signedNumTok2 cs
  let al ← slashAlphaEnd cs
  pure (l, a, b, al)

/-- `xyzPattern`: `(?i)^xyz\s*\(\s*(-?NUM2)\s+(-?NUM2)\s+(-?NUM2)\s*`
`(?:/\s*NUM2\s*)?\)$`. -/
def xyzMatch (s : String) : Option (String × String × String × Option String) := do
  let cs ← keywordCI ['x', 'y', 'z'] s.toList
  let cs ← expectChar '(' (skipWs cs)
  let (x, cs) ← signedNumTok2 (skipWs cs)
  let cs ← skipWs1 cs
  let (y, cs) ← signedNumTok2 cs
  let cs ← skipWs1 cs
  let (z, cs) ← signedNumTok2 cs
  let al ← slashAlphaEnd cs
  pure (x, y, z, al)

/-- `hwbPattern`: `(?i)^hwb\s*\(\s*NUM1\s+NUM1%\s+NUM1%\s*`
`(?:/\s*NUM2\s*)?\)$`. -/
def hwbMatch (s : String) : Option (String × String × String × Option String) := do
  let cs ← keywordCI ['h', 'w', 'b'] s.toList
  let cs ← expectChar '(' (skipWs cs)
  let (h, cs) ← numTok1 (skipWs cs)
  let cs ← skipWs1 cs
  let (w, cs) ← numTok1 cs
  let cs ← expectChar '%' cs
  let cs ← skipWs1 cs
  let (b, cs) ← numTok1 cs
  let cs ← expectChar '%' cs
  let al ← slashAlphaEnd cs
  pure (h, w, b, al)

/-- `cmykPattern`: `(?i)^cmyk\s*\(\s*NUM1%\s+NUM1%\s+NUM1%\s+NUM1%\s*`
`(?:/\s*NUM2\s*)?\)$`. -/
def cmykMatch (s : String) :
    Option (String × String × String × String × Option String) := do
  let cs ← keywordCI ['c', 'm', 'y', 'k'] s.toList
  let cs ← expectChar '(' (skipWs cs)
  let (c, cs) ← numTok1 (skipWs cs)
  let cs ← expectChar '%' cs
  let cs ← skipWs1 cs
  let (m, cs) ← numTok1 cs
  let cs ← expectChar '%' cs
  let cs ← skipWs1 cs
  let (y, cs) ← numTok1 cs
  let cs ← expectChar '%' cs
  let cs ← skipWs1 cs
  let (k, cs) ← numTok1 cs
  let cs ← expectChar '%' cs
  let al ← slashAlphaEnd cs
  pure (c, m, y, k, al)

/-! ## Format-specific parsers (Go detection source file) -/

/-- `parseHexDigit`: nibble value of one hex digit (0 for a non-digit). -/
def parseHexDigit (c : Char) : ℕ :=
  if '0' ≤ c ∧ c ≤ '9' then c.toNat - 48
  else if 'a' ≤ c ∧ c ≤ 'f' then c.toNat - 97 + 10
  else if 'A' ≤ c ∧ c ≤ 'F' then c.toNat - 65 + 10
  else 0

/-- `parseHexByte`: `strconv.ParseInt(s, 16, 0)` on a two-hex-digit string
(0 when the text is not hexadecimal, as the ignored-error path gives). -/
def parseHexByte (cs : List Char) : ℕ :=
  if cs.all isHexDigit then cs.foldl (fun a c => 16 * a + parseHexDigit c) 0 else 0

/-- `strings.TrimPrefix(input, "#")`, as the character list. -/
def goTrimHash (input : String) : List Char :=
  match input.toList with
  | '#' :: rest => rest
  | cs => cs

/-- `parseHEX`: strip the `#`, dispatch on 3/4/6/8 digits; alpha stored as a
fraction of 255. -/
def parseHEX (input : String) : Option Color :=
  match goTrimHash input with
  | [c1, c2, c3] =>
    some ⟨(parseHexDigit c1 * 17 : ℕ), (parseHexDigit c2 * 17 : ℕ),
          (parseHexDigit c3 * 17 : ℕ), (255 : ℝ) / RGBMax⟩
  | [c1, c2, c3, c4] =>
    some ⟨(parseHexDigit c1 * 17 : ℕ), (parseHexDigit c2 * 17 : ℕ),
          (parseHexDigit c3 * 17 : ℕ), (parseHexDigit c4 * 17 : ℕ) / RGBMax⟩
  | [c1, c2, c3, c4, c5, c6] =>
    some ⟨(parseHexByte [c1, c2] : ℕ), (parseHexByte [c3, c4] : ℕ),
          (parseHexByte [c5, c6] : ℕ), (255 : ℝ) / RGBMax⟩
  | [c1, c2, c3, c4, c5, c6, c7, c8] =>
    some ⟨(parseHexByte [c1, c2] : ℕ), (parseHexByte [c3, c4] : ℕ),
          (parseHexByte [c5, c6] : ℕ), (parseHexByte [c7, c8] : ℕ) / RGBMax⟩
  | _ => none

/-- `parseRGB`: three channels through the RGB-channel model, optional alpha
parsed and clamped to `[0,1]`; the boolean reports alpha presence. -/
def parseRGB (input : String) : Option (Color × Bool) := do
  let ((v1, p1), (v2, p2), (v3, p3), al) ← rgbMatch input
  let rc ← (NewRGBChannel v1 p1).toOption
  let gc ← (NewRGBChannel v2 p2).toOption
  let bc ← (NewRGBChannel v3 p3).toOption
  let aPair : ℝ × Bool :=
    match al with
    | some astr => (clamp (((goParseFloat astr).getD 0 : ℚ) : ℝ) AlphaMin AlphaMax, true)
    | none => (AlphaMax, false)
  pure (⟨rc.ToRGB, gc.ToRGB, bc.ToRGB, aPair.1⟩, aPair.2)

/-- `parseHSL`: fields parsed (parse errors ignored as in the Go source),
clamped, then converted via `hslToRGB`. -/
def parseHSL (input : String) : Option (Color × Bool) := do
  let (hs, ss, ls, al) ← hslMatch input
  let h := clamp (((goParseFloat hs).getD 0 : ℚ) : ℝ) 0 HueMax
  let s := clamp (((goParseFloat ss).getD 0 : ℚ) : ℝ) 0 SaturationMax
  let l := clamp (((goParseFloat ls).getD 0 : ℚ) : ℝ) 0 LightnessMax
  let aPair : ℝ × Bool :=
    match al with
    | some astr => ((((goParseFloat astr).getD 0 : ℚ) : ℝ), true)
    | none => (AlphaMax, false)
  let a := clamp aPair.1 AlphaMin AlphaMax
  let rgb := hslToRGB h s l
  pure (⟨rgb.1, rgb.2.1, rgb.2.2, a⟩, aPair.2)

/-- `parseHSB`: fields parsed, clamped, then converted via `hsbToRGB`. -/
def parseHSB (input : String) : Option (Color × Bool) := do
  let (hs, ss, vs, al) ← hsbMatch input
  let h := clamp (((goParseFloat hs).getD 0 : ℚ) : ℝ) 0 HueMax
  let s := clamp (((goParseFloat ss).getD 0 : ℚ) : ℝ) 0 SaturationMax
  let v := clamp (((goParseFloat vs).getD 0 : ℚ) : ℝ) 0 SaturationMax
  let aPair : ℝ × Bool :=
    match al with
    | some astr => ((((goParseFloat astr).getD 0 : ℚ) : ℝ), true)
    | none => (AlphaMax, false)
  let a := clamp aPair.1 AlphaMin AlphaMax
  let rgb := hsbToRGB h s v
  pure (⟨rgb.1, rgb.2.1, rgb.2.2, a⟩, aPair.2)

/-- `parseOKLCH`: lightness/chroma/hue through the channel models (errors
propagate), optional alpha parsed and clamped. -/
def parseOKLCH (input : String) : Option Color := do
  let ((ls, lp), cstr, hs, al) ← oklchMatch input
  let lc ← (NewLightnessChannel ls lp).toOption
  let cc ← (NewChromaChannel cstr).toOption
  let h ← match hs with
    | some hstr => do
      let hc ← (NewHueChannel hstr).toOption
      pure hc.value
    | none => pure 0
  let a := match al with
    | some astr => clamp (((goParseFloat astr).getD 0 : ℚ) : ℝ) AlphaMin AlphaMax
    | none => AlphaMax
  let rgb := oklchToRGB lc.ToFraction cc.value h
  pure ⟨rgb.1, rgb.2.1, rgb.2.2, a⟩

/-- `parseLAB`: fields parsed (errors ignored), converted via `labToRGB`.
The optional alpha is parsed but **not** clamped. -/
def parseLAB (input : String) : Option Color := do
  let (ls, as_, bs, al) ← labMatch input
  let l := (((goParseFloat ls).getD 0 : ℚ) : ℝ)
  let a := (((goParseFloat as_).getD 0 : ℚ) : ℝ)
  let bV := (((goParseFloat bs).getD 0 : ℚ) : ℝ)
  let alpha := match al with
    | some astr => (((goParseFloat astr).getD 0 : ℚ) : ℝ)
    | none => AlphaMax
  let rgb := labToRGB l a bV
  pure ⟨rgb.1, rgb.2.1, rgb.2.2, alpha⟩

/-- `parseXYZ`: fields parsed (errors ignored), converted via `xyzToRGB`.
The optional alpha is parsed but **not** clamped. -/
def parseXYZ (input : String) : Option Color := do
  let (xs, ys, zs, al) ← xyzMatch input
  let x := (((goParseFloat xs).getD 0 : ℚ) : ℝ)
  let y := (((goParseFloat ys).getD 0 : ℚ) : ℝ)
  let z := (((goParseFloat zs).getD 0 : ℚ) : ℝ)
  let alpha := match al with
    | some astr => (((goParseFloat astr).getD 0 : ℚ) : ℝ)
    | none => AlphaMax
  let rgb := xyzToRGB x y z
  pure ⟨rgb.1, rgb.2.1, rgb.2.2, alpha⟩

/-- `parseHWB`: fields parsed, clamped, converted via `hwbToRGB`. -/
def parseHWB (input : String) : Option (Color × Bool) := do
  let (hs, ws, bs, al) ← hwbMatch input
  let h := clamp (((goParseFloat hs).getD 0 : ℚ) : ℝ) 0 HueMax
  let w := clamp (((goParseFloat ws).getD 0 : ℚ) : ℝ) 0 LightnessMax
  let bV := clamp (((goParseFloat bs).getD 0 : ℚ) : ℝ) 0 LightnessMax
  let aPair : ℝ × Bool :=
    match al with
    | some astr => ((((goParseFloat astr).getD 0 : ℚ) : ℝ), true)
    | none => (AlphaMax, false)
  let a := clamp aPair.1 AlphaMin AlphaMax
  let rgb := hwbToRGB h w bV
  pure (⟨rgb.1, rgb.2.1, rgb.2.2, a⟩, aPair.2)

/-- `parseCMYK`: fields parsed, clamped, converted via `cmykToRGB`; optional
alpha clamped. -/
def parseCMYK (input : String) : Option Color := do
  let (cs_, ms, ys, ks, al) ← cmykMatch input
  let c := clamp (((goParseFloat cs_).getD 0 : ℚ) : ℝ) 0 SaturationMax
  let m := clamp (((goParseFloat ms).getD 0 : ℚ) : ℝ) 0 SaturationMax
  let y := clamp (((goParseFloat ys).getD 0 : ℚ) : ℝ) 0 SaturationMax
  let k := clamp (((goParseFloat ks).getD 0 : ℚ) : ℝ) 0 SaturationMax
  let a := match al with
    | some astr => clamp (((goParseFloat astr).getD 0 : ℚ) : ℝ) AlphaMin AlphaMax
    | none => AlphaMax
  let rgb := cmykToRGB c m y k
  pure ⟨rgb.1, rgb.2.1, rgb.2.2, a⟩

/-- Unicode white space as `strings.TrimSpace` strips it (the Latin-1 range;
code points above U+00A0 in Unicode's White_Space class never occur in the
grammars' inputs). -/
def goUnicodeSpace (c : Char) : Bool :=
  c = ' ' ∨ c = '\t' ∨ c = '\n' ∨ c = '\x0b' ∨ c = '\x0c' ∨ c = '\r' ∨
    c = '\x85' ∨ c = '\xA0'

/-- `strings.TrimSpace`. -/
def goTrimSpace (s : String) : String :=
  String.mk (((s.toList.dropWhile goUnicodeSpace).reverse.dropWhile
    goUnicodeSpace).reverse)

/-- `DetectFormat`: trim, then try the twelve grammars in the fixed priority
order hex, rgb/rgba, hsl/hsla, hsb/hsv, oklch, lab, xyz, hwb, cmyk; the
first structural match wins. -/
def DetectFormat (input : String) : Option ColorData :=
  let input := goTrimSpace input
  if hexMatch input then
    (parseHEX input).map fun c => ⟨c, .hex, input⟩
  else if (rgbMatch input).isSome then
    (parseRGB input).map fun p => ⟨p.1, if p.2 then .rgba else .rgb, input⟩
  else if (hslMatch input).isSome then
    (parseHSL input).map fun p => ⟨p.1, if p.2 then .hsla else .hsl, input⟩
  else if (hsbMatch input).isSome then
    (parseHSB input).map fun p =>
      let lower := input.toList.map Char.toLower
      ⟨p.1,
       if 4 ≤ lower.length ∧ lower.take 3 = ['h', 's', 'v'] then .hsv else .hsb,
       input⟩
  else if (oklchMatch input).isSome then
    (parseOKLCH input).map fun c => ⟨c, .oklch, input⟩
  else if (labMatch input).isSome then
    (parseLAB input).map fun c => ⟨c, .lab, input⟩
  else if (xyzMatch input).isSome then
    (parseXYZ input).map fun c => ⟨c, .xyz, input⟩
  else if (hwbMatch input).isSome then
    (parseHWB input).map fun p => ⟨p.1, .hwb, input⟩
  else if (cmykMatch input).isSome then
    (parseCMYK input).map fun c => ⟨c, .cmyk, input⟩
  else none

/-! ## Converter (hex target) -/

/-- One uppercase hexadecimal digit character. -/
def hexDigitChar (n : ℕ) : Char :=
  if n < 10 then Char.ofNat (48 + n) else Char.ofNat (55 + n)

/-- Go's `%02X` on a byte-range integer: two uppercase hex digits. -/
def byteHex (n : ℤ) : String :=
  String.mk [hexDigitChar (n.toNat / 16 % 16), hexDigitChar (n.toNat % 16)]

/-- `formatHEX`: rounds each channel; renders 8 hex digits when `a < 1`,
else 6. -/
def formatHEX (r g b a : ℝ) : String :=
  if a < 1.0 then
    "#" ++ byteHex (goRound r) ++ byteHex (goRound g) ++ byteHex (goRound b) ++
      byteHex (goRound (a * 255))
  else
    "#" ++ byteHex (goRound r) ++ byteHex (goRound g) ++ byteHex (goRound b)

/-- `Convert` specialised to target format `"hex"` (a valid format, so
`Convert` reaches the `FormatHEX` switch arm): detect the input, apply the
alpha-preservation policy, render with `formatHEX`.  The other target arms
render non-hex strings and are not modelled. -/
def ConvertHex (color : String) (preserveAlpha : Bool) : Option String := do
  let data ← DetectFormat color
  let a := if preserveAlpha then data.Color.A else 1.0
  pure (formatHEX data.Color.R data.Color.G data.Color.B a)

/-! ## Comparator (Go comparison source file) -/

/-- `VerdictType`. -/
inductive VerdictType
  | identical | indistinguishable | slightlyDifferent | different
  deriving DecidableEq

/-- `ComparisonResult`. -/
structure ComparisonResult where
  Color1 : ColorData
  Color2 : ColorData
  PerceptualDiff : ℝ
  Verdict : VerdictType
  HueDiff : ℝ
  LightnessDiff : ℝ
  SaturationDiff : ℝ
  ContrastRatio : ℝ
  WCAGGrade : String

/-- `calculateOKLCHDeltaE`: Euclidean distance in OKLab (polar → Cartesian). -/
def calculateOKLCHDeltaE (c1 c2 : Color) : ℝ :=
  let o1 := rgbToOKLCH c1.R c1.G c1.B
  let o2 := rgbToOKLCH c2.R c2.G c2.B
  let a1 := o1.2.1 * Real.cos (o1.2.2 * Real.pi / 180)
  let b1 := o1.2.1 * Real.sin (o1.2.2 * Real.pi / 180)
  let a2 := o2.2.1 * Real.cos (o2.2.2 * Real.pi / 180)
  let b2 := o2.2.1 * Real.sin (o2.2.2 * Real.pi / 180)
  let deltaL := o2.1 - o1.1
  let deltaA := a2 - a1
  let deltaB := b2 - b1
  Real.sqrt (deltaL * deltaL + deltaA * deltaA + deltaB * deltaB)

/-- `calculateHueDifference`: shortest arc around the 360° circle. -/
def calculateHueDifference (h1 h2 : ℝ) : ℝ :=
  let diff := |h1 - h2|
  if diff > 180 then 360 - diff else diff

/-- `calculateRelativeLuminance` (WCAG 2.0). -/
def calculateRelativeLuminance (c : Color) : ℝ :=
  0.2126 * srgbInverseGamma (c.R / 255) + 0.7152 * srgbInverseGamma (c.G / 255) +
    0.0722 * srgbInverseGamma (c.B / 255)

/-- `calculateContrastRatio` (WCAG). -/
def calculateContrastRatio (c1 c2 : Color) : ℝ :=
  let l1 := calculateRelativeLuminance c1
  let l2 := calculateRelativeLuminance c2
  (max l1 l2 + 0.05) / (min l1 l2 + 0.05)

/-- `determineVerdict`: maps ΔE to the verdict. -/
def determineVerdict (deltaE : ℝ) : VerdictType :=
  if deltaE = DeltaEIdentical then .identical
  else if deltaE ≤ DeltaEIndistinguishable then .indistinguishable
  else if deltaE ≤ DeltaESlightlyDifferent then .slightlyDifferent
  else .different

/-- `getWCAGGrade`: checked in descending order, first match wins. -/
def getWCAGGrade (contrast : ℝ) : String :=
  if contrast ≥ WCAGAAANormal then "AAA"
  else if contrast ≥ WCAGAANormal then "AA"
  else if contrast ≥ WCAGAALarge then "AA (large text only)"
  else "Fail"

/-- `CompareColors`: parse both inputs, compute all metrics. -/
def CompareColors (color1 color2 : String) : Option ComparisonResult := do
  let data1 ← DetectFormat color1
  let data2 ← DetectFormat color2
  let deltaE := calculateOKLCHDeltaE data1.Color data2.Color
  let hsl1 := rgbToHSL data1.Color.R data1.Color.G data1.Color.B
  let hsl2 := rgbToHSL data2.Color.R data2.Color.G data2.Color.B
  let contrast := calculateContrastRatio data1.Color data2.Color
  pure
    { Color1 := data1
      Color2 := data2
      PerceptualDiff := deltaE
      Verdict := determineVerdict deltaE
      HueDiff := calculateHueDifference hsl1.1 hsl2.1
      LightnessDiff := |hsl2.2.2 - hsl1.2.2|
      SaturationDiff := |hsl2.2.1 - hsl1.2.1|
      ContrastRatio := contrast
      WCAGGrade := getWCAGGrade contrast }

/-! ## Basic facts about `clamp` -/

theorem clamp_of_lt {v lo hi : ℝ} (h : v < lo) : clamp v lo hi = lo := by
  unfold clamp; rw [if_pos h]

theorem clamp_of_gt {v lo hi : ℝ} (hlo : lo ≤ hi) (h : hi < v) : clamp v lo hi = hi := by
  unfold clamp
  rw [if_neg (by linarith), if_pos h]

theorem clamp_of_mem {v lo hi : ℝ} (h1 : lo ≤ v) (h2 : v ≤ hi) : clamp v lo hi = v := by
  unfold clamp
  rw [if_neg (by linarith), if_neg (by linarith)]

theorem clamp_mem {v lo hi : ℝ} (h : lo ≤ hi) :
    lo ≤ clamp v lo hi ∧ clamp v lo hi ≤ hi := by
  unfold clamp
  split_ifs with h1 h2 <;> constructor <;> linarith

end

/-! ## Claims C2 and C9: the channel constructors -/

/-- **C2 counterexample.**  The claim says parsing `"-10"` as *any* channel
kind returns a `NegativeValue` error.  The chroma and hue constructors have no
negative-value check: they silently clamp `-10` to `0` and return no error. -/
theorem C2_counterexample :
    NewChromaChannel "-10" = .ok ⟨0⟩ ∧ NewHueChannel "-10" = .ok ⟨0⟩ := by
  have h : goParseFloat "-10" = some (-10) := by
    have hs : decSplit "-10".toList = some (true, 10, 0, 0) := by decide
    unfold goParseFloat; rw [hs]; simp
  constructor
  · unfold NewChromaChannel
    rw [h]
    simp only [Except.ok.injEq, ChromaChannel.mk.injEq]
    rw [clamp_of_lt (by push_cast; norm_num)]
  · unfold NewHueChannel
    rw [h]
    simp only [Except.ok.injEq, HueChannel.mk.injEq]
    rw [clamp_of_lt (by push_cast; norm_num)]

/-- **C2 (amended).**  Parsing `"-10"` yields a `NegativeValue` error for the
constructors built on `NewChannelValue` — the RGB channel and the lightness
channel — while the chroma and hue constructors return no error and silently
clamp the negative value to `0`. -/
theorem C2_negative_rejection :
    (∀ p : Bool, NewChannelValue "-10" p = .error .negativeValue) ∧
    (∀ p : Bool, NewRGBChannel "-10" p = .error .negativeValue) ∧
    (∀ p : Bool, NewLightnessChannel "-10" p = .error .negativeValue) ∧
    NewChromaChannel "-10" = .ok ⟨0⟩ ∧ NewHueChannel "-10" = .ok ⟨0⟩ := by
  have h : goParseFloat "-10" = some (-10) := by
    have hs : decSplit "-10".toList = some (true, 10, 0, 0) := by decide
    unfold goParseFloat; rw [hs]; simp
  have hcv : ∀ p : Bool, NewChannelValue "-10" p = .error .negativeValue := by
    intro p
    unfold NewChannelValue
    rw [h]
    dsimp only
    rw [if_pos (by push_cast; norm_num)]
  refine ⟨hcv, fun p => ?_, fun p => ?_, ?_, ?_⟩
  · unfold NewRGBChannel; rw [hcv p]
  · unfold NewLightnessChannel; rw [hcv p]
  · unfold NewChromaChannel
    rw [h]
    simp only [Except.ok.injEq, ChromaChannel.mk.injEq]
    rw [clamp_of_lt (by push_cast; norm_num)]
  · unfold NewHueChannel
    rw [h]
    simp only [Except.ok.injEq, HueChannel.mk.injEq]
    rw [clamp_of_lt (by push_cast; norm_num)]

/-- **C9.**  Any parsed numeric value above the channel's upper bound is
silently clamped to the bound (`HueMax = 360`, `OKLCH_C_Max = 0.4`) with no
error; in particular a hue of `400` yields `360` and a chroma of `1.0` yields
`0.4`. -/
theorem C9_clamp_above_bound :
    (∀ (s : String) (v : ℚ), goParseFloat s = some v → HueMax < (v : ℝ) →
      NewHueChannel s = .ok ⟨HueMax⟩) ∧
    (∀ (s : String) (v : ℚ), goParseFloat s = some v → OKLCH_C_Max < (v : ℝ) →
      NewChromaChannel s = .ok ⟨OKLCH_C_Max⟩) ∧
    NewHueChannel "400" = .ok ⟨360⟩ ∧ NewChromaChannel "1.0" = .ok ⟨0.4⟩ := by
  have hue : ∀ (s : String) (v : ℚ), goParseFloat s = some v → HueMax < (v : ℝ) →
      NewHueChannel s = .ok ⟨HueMax⟩ := by
    intro s v hp hv
    unfold NewHueChannel
    rw [hp]
    simp only [Except.ok.injEq, HueChannel.mk.injEq]
    exact clamp_of_gt (by unfold HueMax; norm_num) hv
  have chroma : ∀ (s : String) (v : ℚ), goParseFloat s = some v → OKLCH_C_Max < (v : ℝ) →
      NewChromaChannel s = .ok ⟨OKLCH_C_Max⟩ := by
    intro s v hp hv
    unfold NewChromaChannel
    rw [hp]
    simp only [Except.ok.injEq, ChromaChannel.mk.injEq]
    exact clamp_of_gt (by unfold OKLCH_C_Max; norm_num) hv
  refine ⟨hue, chroma, ?_, ?_⟩
  · have h400 : goParseFloat "400" = some 400 := by
      have hs : decSplit "400".toList = some (false, 400, 0, 0) := by decide
      unfold goParseFloat; rw [hs]; simp
    have := hue "400" 400 h400 (by unfold HueMax; push_cast; norm_num)
    rw [this]
    unfold HueMax
    norm_num
  · have h1 : goParseFloat "1.0" = some 1 := by
      have hs : decSplit "1.0".toList = some (false, 1, 0, 1) := by decide
      unfold goParseFloat; rw [hs]; simp
    have := chroma "1.0" 1 h1 (by unfold OKLCH_C_Max; push_cast; norm_num)
    rw [this]
    unfold OKLCH_C_Max
    norm_num

/-! ## Claim C4: verdict thresholds -/

/-- **C4.**  For every non-negative perceptual difference `d` the verdict is
`identical` at `d = 0`, `indistinguishable` on `0 < d ≤ 0.02`,
`slightly different` on `0.02 < d ≤ 0.10` and `different` for `d > 0.10`;
both threshold boundaries are inclusive (witnessed concretely at `d = 0.02`
and `d = 0.10`). -/
theorem C4_verdict_thresholds :
    (∀ d : ℝ, d = 0 → determineVerdict d = .identical) ∧
    (∀ d : ℝ, 0 < d → d ≤ 0.02 → determineVerdict d = .indistinguishable) ∧
    (∀ d : ℝ, 0.02 < d → d ≤ 0.10 → determineVerdict d = .slightlyDifferent) ∧
    (∀ d : ℝ, 0.10 < d → determineVerdict d = .different) ∧
    determineVerdict 0.02 = .indistinguishable ∧
    determineVerdict 0.10 = .slightlyDifferent := by
  have hid : ∀ d : ℝ, d = 0 → determineVerdict d = .identical := by
    intro d hd
    unfold determineVerdict DeltaEIdentical
    rw [if_pos (show d = (0.0 : ℝ) by rw [hd]; norm_num)]
  have hind : ∀ d : ℝ, 0 < d → d ≤ 0.02 → determineVerdict d = .indistinguishable := by
    intro d h1 h2
    unfold determineVerdict DeltaEIdentical DeltaEIndistinguishable
    rw [if_neg (by linarith), if_pos (by linarith)]
  have hsl : ∀ d : ℝ, 0.02 < d → d ≤ 0.10 → determineVerdict d = .slightlyDifferent := by
    intro d h1 h2
    unfold determineVerdict DeltaEIdentical DeltaEIndistinguishable DeltaESlightlyDifferent
    rw [if_neg (by norm_num; linarith), if_neg (by norm_num; linarith), if_pos (by linarith)]
  have hdf : ∀ d : ℝ, 0.10 < d → determineVerdict d = .different := by
    intro d h1
    unfold determineVerdict DeltaEIdentical DeltaEIndistinguishable DeltaESlightlyDifferent
    rw [if_neg (by norm_num; linarith), if_neg (by norm_num; linarith),
      if_neg (by norm_num; linarith)]
  exact ⟨hid, hind, hsl, hdf, hind 0.02 (by norm_num) (by norm_num),
    hsl 0.10 (by norm_num) (by norm_num)⟩

/-! ## Claim C7: hue difference takes the shorter arc -/

/-- **C7.**  For hue angles in `[0, 360]`, `calculateHueDifference` is
`min |h1 - h2| (360 - |h1 - h2|)`; in particular `350` vs `10` gives `20`
and `0` vs `180` gives `180`. -/
theorem C7_hue_shortest_arc :
    (∀ h1 h2 : ℝ, 0 ≤ h1 → h1 ≤ 360 → 0 ≤ h2 → h2 ≤ 360 →
      calculateHueDifference h1 h2 = min |h1 - h2| (360 - |h1 - h2|)) ∧
    calculateHueDifference 350 10 = 20 ∧ calculateHueDifference 0 180 = 180 := by
  have gen : ∀ h1 h2 : ℝ, 0 ≤ h1 → h1 ≤ 360 → 0 ≤ h2 → h2 ≤ 360 →
      calculateHueDifference h1 h2 = min |h1 - h2| (360 - |h1 - h2|) := by
    intro h1 h2 ha hb hc hd
    have habs : |h1 - h2| ≤ 360 := abs_le.mpr ⟨by linarith, by linarith⟩
    unfold calculateHueDifference
    by_cases hgt : |h1 - h2| > 180
    · rw [if_pos hgt, min_eq_right (by linarith)]
    · rw [if_neg hgt, min_eq_left (by push_neg at hgt; linarith)]
  refine ⟨gen, ?_, ?_⟩
  · have h1 : |(350 : ℝ) - 10| = 340 := by rw [abs_of_nonneg] <;> norm_num
    unfold calculateHueDifference
    rw [h1, if_pos (by norm_num)]
    norm_num
  · have h1 : |(0 : ℝ) - 180| = 180 := by rw [abs_of_nonpos] <;> norm_num
    unfold calculateHueDifference
    rw [h1, if_neg (by norm_num)]

/-! ## Claim C8: the CMYK pure-black degenerate case -/

/-- **C8.**  `rgbToCMYK 0 0 0` returns `C = M = Y = 0%` and `K = 100%`: the
`k = 1` guard forces the chromatic components to zero, so the degenerate
division contributes nothing to the result. -/
theorem C8_cmyk_pure_black : rgbToCMYK 0 0 0 = (0, 0, 0, 100) := by
  unfold rgbToCMYK RGBMax SaturationMax
  norm_num

/-! ## Claim C10: the HSB matcher accepts the `hsc` keyword -/

/-- **C10.**  `DetectFormat "hsc(0, 100%, 100%)"` succeeds — the HSB pattern
`hs[bcv]` accepts the keyword `hsc`, which is none of the twelve format
names — and the result is tagged `hsb` (the color is pure red, hue 0 at
full saturation and brightness). -/
theorem C10_hsc_keyword_detects_as_hsb :
    DetectFormat "hsc(0, 100%, 100%)" =
      some ⟨⟨255, 0, 0, 1⟩, .hsb, "hsc(0, 100%, 100%)"⟩ := by
  have htrim : goTrimSpace "hsc(0, 100%, 100%)" = "hsc(0, 100%, 100%)" := by decide
  have hhex : hexMatch "hsc(0, 100%, 100%)" = false := by decide
  have hrgb : rgbMatch "hsc(0, 100%, 100%)" = none := by decide
  have hhsl : hslMatch "hsc(0, 100%, 100%)" = none := by decide
  have hhsb : hsbMatch "hsc(0, 100%, 100%)" = some ("0", "100", "100", none) := by decide
  have hparse : parseHSB "hsc(0, 100%, 100%)" = some (⟨255, 0, 0, 1⟩, false) := by
    have hp0 : goParseFloat "0" = some 0 := by
      have h : decSplit "0".toList = some (false, 0, 0, 0) := by decide
      unfold goParseFloat; rw [h]; simp
    have hp100 : goParseFloat "100" = some 100 := by
      have h : decSplit "100".toList = some (false, 100, 0, 0) := by decide
      unfold goParseFloat; rw [h]; simp
    have hv : hsbToRGB 0 100 100 = (255, 0, 0) := by
      unfold hsbToRGB goMod goTrunc SaturationMax RGBMax
      norm_num
    unfold parseHSB
    rw [hhsb]
    simp only [Option.bind_eq_bind, Option.some_bind, hp0, hp100, Option.getD_some]
    rw [clamp_of_mem (by norm_num) (by unfold HueMax; norm_num),
      clamp_of_mem (by norm_num) (by unfold SaturationMax; norm_num)]
    push_cast
    rw [hv]
    unfold AlphaMax AlphaMin
    rw [clamp_of_mem (by norm_num) (by norm_num)]
    norm_num
  unfold DetectFormat
  simp only [htrim, hhex, hrgb, hhsl, hhsb, hparse, Option.isSome_none, Option.isSome_some,
    Bool.false_eq_true, if_false, if_true, Option.map_some]
  split_ifs with hcase
  · exact absurd hcase (by decide)
  · rfl

/-! ## Claim C1: parsed-color bounds, and the unclamped LAB/XYZ alpha -/

/-- **C1 (code bug).**  The claim — every accepted input yields
`R, G, B ∈ [0, 255]` and `A ∈ [0, 1]`, LAB and XYZ inputs with a `/ alpha`
field included — fails on the code: `parseLAB` and `parseXYZ` are the only
parsers that never clamp the alpha field, so `lab(50 0 0 / 1.5)` and
`xyz(0.2 0.2 0.2 / 1.5)` are accepted with `A = 1.5 > 1`, against the
declared `0-1` invariant of the `Color` type. -/
theorem C1_lab_xyz_alpha_not_clamped :
    (DetectFormat "lab(50 0 0 / 1.5)").map (fun cd => cd.Color.A) = some 1.5 ∧
    (DetectFormat "xyz(0.2 0.2 0.2 / 1.5)").map (fun cd => cd.Color.A) = some 1.5 ∧
    ¬((1.5 : ℝ) ≤ 1) := by
  have hp15 : goParseFloat "1.5" = some (3 / 2) := by
    have h : decSplit "1.5".toList = some (false, 1, 5, 1) := by decide
    unfold goParseFloat; rw [h]; simp; norm_num
  refine ⟨?_, ?_, by norm_num⟩
  · have htrim : goTrimSpace "lab(50 0 0 / 1.5)" = "lab(50 0 0 / 1.5)" := by decide
    have hhex : hexMatch "lab(50 0 0 / 1.5)" = false := by decide
    have hrgb : rgbMatch "lab(50 0 0 / 1.5)" = none := by decide
    have hhsl : hslMatch "lab(50 0 0 / 1.5)" = none := by decide
    have hhsb : hsbMatch "lab(50 0 0 / 1.5)" = none := by decide
    have hok : oklchMatch "lab(50 0 0 / 1.5)" = none := by decide
    have hlab : labMatch "lab(50 0 0 / 1.5)" = some ("50", "0", "0", some "1.5") := by decide
    unfold DetectFormat parseLAB
    simp only [htrim, hhex, hrgb, hhsl, hhsb, hok, hlab, Option.isSome_none, Option.isSome_some,
      Bool.false_eq_true, if_false, if_true, Option.bind_eq_bind, Option.some_bind,
      Option.map_some, hp15, Option.getD_some]
    push_cast
    norm_num
  · have htrim : goTrimSpace "xyz(0.2 0.2 0.2 / 1.5)" = "xyz(0.2 0.2 0.2 / 1.5)" := by decide
    have hhex : hexMatch "xyz(0.2 0.2 0.2 / 1.5)" = false := by decide
    have hrgb : rgbMatch "xyz(0.2 0.2 0.2 / 1.5)" = none := by decide
    have hhsl : hslMatch "xyz(0.2 0.2 0.2 / 1.5)" = none := by decide
    have hhsb : hsbMatch "xyz(0.2 0.2 0.2 / 1.5)" = none := by decide
    have hok : oklchMatch "xyz(0.2 0.2 0.2 / 1.5)" = none := by decide
    have hlab : labMatch "xyz(0.2 0.2 0.2 / 1.5)" = none := by decide
    have hxyz : xyzMatch "xyz(0.2 0.2 0.2 / 1.5)" =
        some ("0.2", "0.2", "0.2", some "1.5") := by decide
    unfold DetectFormat parseXYZ
    simp only [htrim, hhex, hrgb, hhsl, hhsb, hok, hlab, hxyz, Option.isSome_none,
      Option.isSome_some, Bool.false_eq_true, if_false, if_true, Option.bind_eq_bind,
      Option.some_bind, Option.map_some, hp15, Option.getD_some]
    push_cast
    norm_num

/-! ## Claim C5: alpha-preservation policy of the hex conversion -/

/-- **C5.**  Converting `rgba(255,0,0,0.5)` to hex with `preserve_alpha = true`
renders 8 hex digits, `#FF000080` (128 = round of 0.5·255); with
`preserve_alpha = false` the alpha is forced to 1 and 6 digits are rendered,
`#FF0000`. -/
theorem C5_convert_rgba_hex_alpha_policy :
    ConvertHex "rgba(255,0,0,0.5)" true = some "#FF000080" ∧
    ConvertHex "rgba(255,0,0,0.5)" false = some "#FF0000" := by
  have hp255 : goParseFloat "255" = some 255 := by
    have h : decSplit "255".toList = some (false, 255, 0, 0) := by decide
    unfold goParseFloat; rw [h]; simp
  have hp0 : goParseFloat "0" = some 0 := by
    have h : decSplit "0".toList = some (false, 0, 0, 0) := by decide
    unfold goParseFloat; rw [h]; simp
  have hp05 : goParseFloat "0.5" = some (1 / 2) := by
    have h : decSplit "0.5".toList = some (false, 0, 5, 1) := by decide
    unfold goParseFloat; rw [h]; simp; norm_num
  have hch255 : NewRGBChannel "255" false = .ok ⟨⟨255, false⟩⟩ := by
    unfold NewRGBChannel NewChannelValue
    rw [hp255]
    dsimp only
    rw [if_neg (by push_cast; norm_num)]
    push_cast
    rfl
  have hch0 : NewRGBChannel "0" false = .ok ⟨⟨0, false⟩⟩ := by
    unfold NewRGBChannel NewChannelValue
    rw [hp0]
    dsimp only
    rw [if_neg (by push_cast; norm_num)]
    push_cast
    rfl
  have hto255 : RGBChannel.ToRGB ⟨⟨255, false⟩⟩ = 255 := by
    unfold RGBChannel.ToRGB ChannelValue.As255
    simp only [Bool.false_eq_true, if_false]
    exact clamp_of_mem (by norm_num) (by unfold RGBMax; norm_num)
  have hto0 : RGBChannel.ToRGB ⟨⟨0, false⟩⟩ = 0 := by
    unfold RGBChannel.ToRGB ChannelValue.As255
    simp only [Bool.false_eq_true, if_false]
    exact clamp_of_mem (by norm_num) (by unfold RGBMax; norm_num)
  have hdet : DetectFormat "rgba(255,0,0,0.5)" =
      some ⟨⟨255, 0, 0, 1 / 2⟩, .rgba, "rgba(255,0,0,0.5)"⟩ := by
    have htrim : goTrimSpace "rgba(255,0,0,0.5)" = "rgba(255,0,0,0.5)" := by decide
    have hhex : hexMatch "rgba(255,0,0,0.5)" = false := by decide
    have hrgb : rgbMatch "rgba(255,0,0,0.5)" =
        some (("255", false), ("0", false), ("0", false), some "0.5") := by decide
    unfold DetectFormat parseRGB
    simp only [htrim, hhex, hrgb, Option.isSome_some, Bool.false_eq_true, if_false, if_true,
      Option.bind_eq_bind, Option.some_bind, hch255, hch0, Except.toOption, hto255, hto0,
      hp05, Option.getD_some]
    unfold AlphaMin AlphaMax
    rw [clamp_of_mem (by push_cast; norm_num) (by push_cast; norm_num)]
    push_cast
    norm_num
  have hr255 : goRound 255 = 255 := by
    unfold goRound
    rw [if_neg (by norm_num)]
    norm_num [Int.floor_eq_iff]
  have hr0 : goRound 0 = 0 := by
    unfold goRound
    rw [if_neg (by norm_num)]
    norm_num
  have hr128 : goRound (1 / 2 * 255) = 128 := by
    unfold goRound
    rw [if_neg (by norm_num)]
    norm_num [Int.floor_eq_iff]
  constructor
  · unfold ConvertHex
    rw [hdet]
    simp only [Option.bind_eq_bind, Option.some_bind, if_true]
    unfold formatHEX
    rw [if_pos (by norm_num), hr255, hr0, hr128]
    decide
  · unfold ConvertHex
    rw [hdet]
    simp only [Option.bind_eq_bind, Option.some_bind, Bool.false_eq_true, if_false]
    unfold formatHEX
    rw [if_neg (by norm_num), hr255, hr0]
    decide

/-! ## Claim C3: comparator at the contrast and identity extremes -/

/-- **C3.**  `compare("#000000", "#FFFFFF")` yields contrast ratio exactly 21
(within the claimed ±0.01, since it is exact here) and WCAG grade `"AAA"`;
`compare("#FF0000", "#FF0000")` yields perceptual difference exactly 0 and
verdict `identical`. -/
theorem C3_compare_extremes :
    ((CompareColors "#000000" "#FFFFFF").map fun res => (res.ContrastRatio, res.WCAGGrade)) =
      some (21, "AAA") ∧
    ((CompareColors "#FF0000" "#FF0000").map fun res => (res.PerceptualDiff, res.Verdict)) =
      some (0, .identical) := by
  have hdetB : DetectFormat "#000000" = some ⟨⟨0, 0, 0, 1⟩, .hex, "#000000"⟩ := by
    have htrim : goTrimSpace "#000000" = "#000000" := by decide
    have hhex : hexMatch "#000000" = true := by decide
    have hlist : goTrimHash "#000000" = ['0', '0', '0', '0', '0', '0'] := by decide
    have hbyte : parseHexByte ['0', '0'] = 0 := by decide
    unfold DetectFormat parseHEX
    simp only [htrim, hhex, if_true, hlist, hbyte, Option.map_some]
    unfold RGBMax
    norm_num
  have hdetW : DetectFormat "#FFFFFF" = some ⟨⟨255, 255, 255, 1⟩, .hex, "#FFFFFF"⟩ := by
    have htrim : goTrimSpace "#FFFFFF" = "#FFFFFF" := by decide
    have hhex : hexMatch "#FFFFFF" = true := by decide
    have hlist : goTrimHash "#FFFFFF" = ['F', 'F', 'F', 'F', 'F', 'F'] := by decide
    have hbyte : parseHexByte ['F', 'F'] = 255 := by decide
    unfold DetectFormat parseHEX
    simp only [htrim, hhex, if_true, hlist, hbyte, Option.map_some]
    unfold RGBMax
    norm_num
  have hdetR : DetectFormat "#FF0000" = some ⟨⟨255, 0, 0, 1⟩, .hex, "#FF0000"⟩ := by
    have htrim : goTrimSpace "#FF0000" = "#FF0000" := by decide
    have hhex : hexMatch "#FF0000" = true := by decide
    have hlist : goTrimHash "#FF0000" = ['F', 'F', '0', '0', '0', '0'] := by decide
    have hbyteF : parseHexByte ['F', 'F'] = 255 := by decide
    have hbyte0 : parseHexByte ['0', '0'] = 0 := by decide
    unfold DetectFormat parseHEX
    simp only [htrim, hhex, if_true, hlist, hbyteF, hbyte0, Option.map_some]
    unfold RGBMax
    norm_num
  have hlumB : calculateRelativeLuminance ⟨0, 0, 0, 1⟩ = 0 := by
    unfold calculateRelativeLuminance srgbInverseGamma sRGBInverseThreshold sRGBGammaFactor
    norm_num
  have hlumW : calculateRelativeLuminance ⟨255, 255, 255, 1⟩ = 1 := by
    unfold calculateRelativeLuminance srgbInverseGamma sRGBInverseThreshold sRGBGammaFactor
      sRGBGammaSubtract sRGBGammaOffset
    rw [if_neg (by norm_num)]
    rw [show ((255 : ℝ) / 255 + 0.055) / 1.055 = 1 by norm_num]
    rw [Real.one_rpow]
    norm_num
  have hcontrast : calculateContrastRatio ⟨0, 0, 0, 1⟩ ⟨255, 255, 255, 1⟩ = 21 := by
    unfold calculateContrastRatio
    rw [hlumB, hlumW]
    dsimp only
    rw [max_eq_right (by norm_num : (0 : ℝ) ≤ 1), min_eq_left (by norm_num : (0 : ℝ) ≤ 1)]
    norm_num
  have hgrade : getWCAGGrade 21 = "AAA" := by
    unfold getWCAGGrade WCAGAAANormal
    rw [if_pos (by norm_num)]
  have hdelta : calculateOKLCHDeltaE ⟨255, 0, 0, 1⟩ ⟨255, 0, 0, 1⟩ = 0 := by
    unfold calculateOKLCHDeltaE
    simp only [sub_self]
    norm_num
  constructor
  · unfold CompareColors
    rw [hdetB, hdetW]
    simp only [Option.bind_eq_bind, Option.some_bind, hcontrast, hgrade, Option.pure_def,
      Option.map_some]
    rfl
  · have hverd : determineVerdict 0 = .identical := by
      unfold determineVerdict DeltaEIdentical
      rw [if_pos (by norm_num)]
    unfold CompareColors
    rw [hdetR]
    simp only [Option.bind_eq_bind, Option.some_bind, hdelta, hverd, Option.pure_def,
      Option.map_some]
    rfl

/-! ## Claim C6: HSL round trip (helper lemmas, the exact round trip, and the
claimed ±1 bound)

Over exact real arithmetic the `rgbToHSL`/`hslToRGB` round trip is exact, so
the claimed ±1-per-channel bound holds with slack; the development below
proves exactness by the case analysis the algorithm itself makes (achromatic,
then the red/green/blue-maximum sectors of the hue circle, each with its
boundary cases). -/

theorem hueToRGB_seg1 {p q t : ℝ} (h0 : 0 ≤ t) (h1 : t < 1 / 6) :
    hueToRGB p q t = p + (q - p) * 6 * t := by
  unfold hueToRGB OneSixth
  dsimp only
  rw [if_neg (by linarith : ¬t < 0)]
  rw [if_neg (by linarith : ¬t > 1)]
  rw [if_pos h1]

theorem hueToRGB_seg2 {p q t : ℝ} (h0 : 1 / 6 ≤ t) (h1 : t < 1 / 2) :
    hueToRGB p q t = q := by
  unfold hueToRGB OneSixth TwoThirds
  dsimp only
  rw [if_neg (by linarith : ¬t < 0)]
  rw [if_neg (by linarith : ¬t > 1)]
  rw [if_neg (by linarith : ¬t < 1 / 6)]
  rw [if_pos (show t < 0.5 by norm_num; linarith)]

theorem hueToRGB_seg3 {p q t : ℝ} (h0 : 1 / 2 ≤ t) (h1 : t < 2 / 3) :
    hueToRGB p q t = p + (q - p) * (2 / 3 - t) * 6 := by
  unfold hueToRGB OneSixth TwoThirds
  dsimp only
  rw [if_neg (by linarith : ¬t < 0)]
  rw [if_neg (by linarith : ¬t > 1)]
  rw [if_neg (by linarith : ¬t < 1 / 6)]
  rw [if_neg (show ¬t < 0.5 by norm_num; linarith)]
  rw [if_pos h1]

theorem hueToRGB_seg4 {p q t : ℝ} (h0 : 2 / 3 ≤ t) (h1 : t ≤ 1) :
    hueToRGB p q t = p := by
  unfold hueToRGB OneSixth TwoThirds
  dsimp only
  rw [if_neg (by linarith : ¬t < 0)]
  rw [if_neg (by linarith : ¬t > 1)]
  rw [if_neg (by linarith : ¬t < 1 / 6)]
  rw [if_neg (show ¬t < 0.5 by norm_num; linarith)]
  rw [if_neg (by linarith : ¬t < 2 / 3)]

theorem hueToRGB_add_one {p q t : ℝ} (h0 : -1 ≤ t) (h1 : t < 0) :
    hueToRGB p q t = hueToRGB p q (t + 1) := by
  unfold hueToRGB
  dsimp only
  rw [if_pos h1]
  rw [if_neg (by linarith : ¬t + 1 < 0)]

theorem hueToRGB_sub_one {p q t : ℝ} (h0 : 1 < t) (h1 : t ≤ 2) :
    hueToRGB p q t = hueToRGB p q (t - 1) := by
  unfold hueToRGB
  dsimp only
  rw [if_neg (by linarith : ¬t < 0)]
  rw [if_pos (show t > 1 from h0)]
  rw [if_neg (by linarith : ¬t - 1 < 0)]
  rw [if_neg (by linarith : ¬t - 1 > 1)]

theorem hsl_q_eq {mn mx L S : ℝ} (h0 : 0 ≤ mn) (h1 : mn < mx) (h2 : mx ≤ 1)
    (hL : L = (mx + mn) / 2)
    (hS : S = if L < 0.5 then (mx - mn) / (mx + mn) else (mx - mn) / (2 - mx - mn)) :
    (if L < 0.5 then L * (1 + S) else L + S - L * S) = mx := by
  have hmx : 0 < mx := lt_of_le_of_lt h0 h1
  by_cases hc : L < 0.5
  · rw [if_pos hc, hS, if_pos hc, hL]
    have hpos : 0 < mx + mn := by linarith
    field_simp
    ring
  · rw [if_neg hc, hS, if_neg hc, hL]
    have hpos : 0 < 2 - mx - mn := by linarith
    field_simp
    ring

theorem hsl_S_pos {mn mx L S : ℝ} (h0 : 0 ≤ mn) (h1 : mn < mx) (h2 : mx ≤ 1)
    (hS : S = if L < 0.5 then (mx - mn) / (mx + mn) else (mx - mn) / (2 - mx - mn)) :
    0 < S := by
  have hmx : 0 < mx := lt_of_le_of_lt h0 h1
  rw [hS]
  split_ifs
  · exact div_pos (by linarith) (by linarith)
  · exact div_pos (by linarith) (by linarith)

theorem hslToRGB_chromatic {H S L mn mx : ℝ} (hS0 : S ≠ 0)
    (hq : (if L < 0.5 then L * (1 + S) else L + S - L * S) = mx)
    (hp : 2 * L - mx = mn) :
    hslToRGB H (S * (100.0 : ℝ)) (L * (100.0 : ℝ)) =
      (hueToRGB mn mx (H / 360 + 1 / 3) * 255,
       hueToRGB mn mx (H / 360) * 255,
       hueToRGB mn mx (H / 360 - 1 / 3) * 255) := by
  unfold hslToRGB SaturationMax LightnessMax RGBMax FullCircle OneThird
  dsimp only
  rw [show S * (100.0 : ℝ) / (100.0 : ℝ) = S by norm_num,
    show L * (100.0 : ℝ) / (100.0 : ℝ) = L by norm_num]
  rw [if_neg hS0, hq, hp]
  norm_num

set_option maxHeartbeats 2000000 in
theorem hslToRGB_rgbToHSL_exact (r g b : ℝ)
    (hr0 : 0 ≤ r) (hr1 : r ≤ 255) (hg0 : 0 ≤ g) (hg1 : g ≤ 255)
    (hb0 : 0 ≤ b) (hb1 : b ≤ 255) :
    hslToRGB (rgbToHSL r g b).1 (rgbToHSL r g b).2.1 (rgbToHSL r g b).2.2 = (r, g, b) := by
  set x := r / (255.0 : ℝ) with hxdef
  set y := g / (255.0 : ℝ) with hydef
  set z := b / (255.0 : ℝ) with hzdef
  have hx0 : 0 ≤ x := by rw [hxdef]; positivity
  have hy0 : 0 ≤ y := by rw [hydef]; positivity
  have hz0 : 0 ≤ z := by rw [hzdef]; positivity
  have hx1 : x ≤ 1 := by rw [hxdef]; rw [div_le_one (by norm_num)]; linarith
  have hy1 : y ≤ 1 := by rw [hydef]; rw [div_le_one (by norm_num)]; linarith
  have hz1 : z ≤ 1 := by rw [hzdef]; rw [div_le_one (by norm_num)]; linarith
  have hxr : x * 255 = r := by rw [hxdef]; field_simp; norm_num
  have hyr : y * 255 = g := by rw [hydef]; field_simp; norm_num
  have hzr : z * 255 = b := by rw [hzdef]; field_simp; norm_num
  clear_value x y z
  set mx := max x (max y z) with hmxdef
  set mn := min x (min y z) with hmndef
  have hxmx : x ≤ mx := by rw [hmxdef]; exact le_max_left _ _
  have hymx : y ≤ mx := by rw [hmxdef]; exact le_trans (le_max_left y z) (le_max_right x _)
  have hzmx : z ≤ mx := by rw [hmxdef]; exact le_trans (le_max_right y z) (le_max_right x _)
  have hmnx : mn ≤ x := by rw [hmndef]; exact min_le_left _ _
  have hmny : mn ≤ y := by
    rw [hmndef]; exact le_trans (min_le_right x _) (min_le_left y z)
  have hmnz : mn ≤ z := by
    rw [hmndef]; exact le_trans (min_le_right x _) (min_le_right y z)
  have hmx1 : mx ≤ 1 := by rw [hmxdef]; exact max_le hx1 (max_le hy1 hz1)
  have hmn0 : 0 ≤ mn := by rw [hmndef]; exact le_min hx0 (le_min hy0 hz0)
  clear_value mx mn
  by_cases hdel : mx - mn = 0
  · -- achromatic: all three channels coincide
    have hmneq : mn = mx := by linarith
    have hxeq : x = mx := le_antisymm hxmx (by linarith)
    have hyeq : y = mx := le_antisymm hymx (by linarith)
    have hzeq : z = mx := le_antisymm hzmx (by linarith)
    have hHSL : rgbToHSL r g b = (0, 0 * (100.0 : ℝ), (mx + mn) / 2 * (100.0 : ℝ)) := by
      unfold rgbToHSL RGBMax SaturationMax LightnessMax
      dsimp only
      rw [← hxdef, ← hydef, ← hzdef, ← hmxdef, ← hmndef]
      rw [if_pos hdel]
    rw [hHSL]
    unfold hslToRGB SaturationMax LightnessMax RGBMax
    dsimp only
    rw [if_pos (show (0 : ℝ) * 100.0 / 100.0 = 0 by norm_num)]
    simp only [Prod.mk.injEq]
    refine ⟨?_, ?_, ?_⟩
    · linear_combination (255 / 2 : ℝ) * hmneq - 255 * hxeq + hxr
    · linear_combination (255 / 2 : ℝ) * hmneq - 255 * hyeq + hyr
    · linear_combination (255 / 2 : ℝ) * hmneq - 255 * hzeq + hzr
  · -- chromatic
    have hmnmx : mn < mx :=
      lt_of_le_of_ne (le_trans hmnx hxmx) (fun h => hdel (by rw [h]; ring))
    have hdelpos : 0 < mx - mn := by linarith
    set L := (mx + mn) / 2 with hLdef
    set S := (if L < 0.5 then (mx - mn) / (mx + mn) else (mx - mn) / (2 - mx - mn))
      with hSdef
    set h0 := (if x = mx then (y - z) / (mx - mn)
               else if y = mx then 2 + (z - x) / (mx - mn)
               else 4 + (x - y) / (mx - mn)) with h0def
    set H := (if h0 * 60 < 0 then h0 * 60 + (360.0 : ℝ) else h0 * 60) with hHdef
    clear_value L S h0 H
    have hHSL : rgbToHSL r g b = (H, S * (100.0 : ℝ), L * (100.0 : ℝ)) := by
      unfold rgbToHSL RGBMax SaturationMax LightnessMax HueMax
      dsimp only
      rw [← hxdef, ← hydef, ← hzdef, ← hmxdef, ← hmndef]
      rw [if_neg hdel]
      rw [← h0def, ← hHdef, ← hLdef, ← hSdef]
    have hSpos : 0 < S := hsl_S_pos hmn0 hmnmx hmx1 hSdef
    have hq : (if L < 0.5 then L * (1 + S) else L + S - L * S) = mx :=
      hsl_q_eq hmn0 hmnmx hmx1 hLdef hSdef
    have hp : 2 * L - mx = mn := by rw [hLdef]; ring
    rw [hHSL]
    dsimp only
    rw [hslToRGB_chromatic (ne_of_gt hSpos) hq hp]
    simp only [Prod.mk.injEq]
    by_cases hxmax : x = mx
    · -- red sector
      have h0eq : h0 = (y - z) / (mx - mn) := by rw [h0def, if_pos hxmax]
      have hprod : h0 * (mx - mn) = y - z := by rw [h0eq]; field_simp
      have hb1 : h0 ≤ 1 := by rw [h0eq]; rw [div_le_one hdelpos]; linarith
      have hbm1 : -1 ≤ h0 := by rw [h0eq]; rw [le_div_iff₀ hdelpos]; linarith
      by_cases hsgn : h0 * 60 < 0
      · -- g < b side
        have h00 : h0 < 0 := by linarith
        have hH : H = h0 * 60 + (360.0 : ℝ) := by rw [hHdef, if_pos hsgn]
        have hk : H / 360 = h0 / 6 + 1 := by rw [hH]; norm_num; ring
        have hzy : y ≤ z := by
          have hm := mul_neg_of_neg_of_pos h00 hdelpos
          rw [hprod] at hm
          linarith
        have hyx : y ≤ x := by rw [hxmax]; exact hymx
        have hmy : mn = y := by rw [hmndef, min_eq_left hzy, min_eq_right hyx]
        refine ⟨?_, ?_, ?_⟩
        · rw [hk, hueToRGB_sub_one (by linarith) (by linarith),
            hueToRGB_seg2 (by linarith) (by linarith)]
          rw [← hxmax]
          exact hxr
        · rw [hk, hueToRGB_seg4 (by linarith) (by linarith), hmy]
          exact hyr
        · rw [hk, hueToRGB_seg3 (by linarith) (by linarith)]
          linear_combination (-255 : ℝ) * hprod + 255 * hmy + hzr
      · -- b ≤ g side
        have h00 : 0 ≤ h0 := by
          have := not_lt.mp hsgn
          linarith
        have hH : H = h0 * 60 := by rw [hHdef, if_neg hsgn]
        have hk : H / 360 = h0 / 6 := by rw [hH]; ring
        have hyz : z ≤ y := by
          have hm := mul_nonneg h00 (le_of_lt hdelpos)
          rw [hprod] at hm
          linarith
        have hzx : z ≤ x := by rw [hxmax]; exact hzmx
        have hmz : mn = z := by rw [hmndef, min_eq_right hyz, min_eq_right hzx]
        refine ⟨?_, ?_, ?_⟩
        · by_cases hlt : h0 < 1
          · rw [hk, hueToRGB_seg2 (by linarith) (by linarith)]
            rw [← hxmax]
            exact hxr
          · have h1e : h0 = 1 := le_antisymm hb1 (not_lt.mp hlt)
            rw [hk, h1e, hueToRGB_seg3 (by norm_num) (by norm_num)]
            linear_combination (-255 : ℝ) * hxmax + hxr
        · by_cases hlt : h0 < 1
          · rw [hk, hueToRGB_seg1 (by linarith) (by linarith)]
            linear_combination (255 : ℝ) * hprod + 255 * hmz + hyr
          · have h1e : h0 = 1 := le_antisymm hb1 (not_lt.mp hlt)
            rw [hk, h1e, hueToRGB_seg2 (by norm_num) (by norm_num)]
            have hy' : y = mx := by
              have h' := hprod
              rw [h1e, one_mul] at h'
              linarith
            rw [← hy']
            exact hyr
        · rw [hk, hueToRGB_add_one (by linarith) (by linarith),
            hueToRGB_seg4 (by linarith) (by linarith), hmz]
          exact hzr
    · by_cases hymax : y = mx
      · -- green sector
        have h0eq : h0 = 2 + (z - x) / (mx - mn) := by
          rw [h0def, if_neg hxmax, if_pos hymax]
        have hprod : h0 * (mx - mn) = 2 * (mx - mn) + (z - x) := by
          rw [h0eq]; field_simp
          try ring
        have hb3 : h0 ≤ 3 := by
          rw [h0eq]
          have : (z - x) / (mx - mn) ≤ 1 := by rw [div_le_one hdelpos]; linarith
          linarith
        have hb1 : 1 ≤ h0 := by
          rw [h0eq]
          have : -1 ≤ (z - x) / (mx - mn) := by rw [le_div_iff₀ hdelpos]; linarith
          linarith
        have hsgn : ¬h0 * 60 < 0 := by push_neg; linarith
        have hH : H = h0 * 60 := by rw [hHdef, if_neg hsgn]
        have hk : H / 360 = h0 / 6 := by rw [hH]; ring
        have hzyy : z ≤ y := by rw [hymax]; exact hzmx
        have hmnxz : mn = min x z := by rw [hmndef, min_eq_right hzyy]
        refine ⟨?_, ?_, ?_⟩
        · by_cases hzx : z < x
          · have h02 : h0 < 2 := by
              rw [h0eq]
              have : (z - x) / (mx - mn) < 0 :=
                div_neg_of_neg_of_pos (by linarith) hdelpos
              linarith
            rw [hk, hueToRGB_seg3 (by linarith) (by linarith)]
            have hm : mn = z := by rw [hmnxz, min_eq_right (le_of_lt hzx)]
            linear_combination (-255 : ℝ) * hprod + 255 * hm + hxr
          · have h02 : 2 ≤ h0 := by
              rw [h0eq]
              have : 0 ≤ (z - x) / (mx - mn) :=
                div_nonneg (by linarith [not_lt.mp hzx]) (le_of_lt hdelpos)
              linarith
            rw [hk, hueToRGB_seg4 (by linarith) (by linarith)]
            have hm : mn = x := by rw [hmnxz, min_eq_left (not_lt.mp hzx)]
            rw [hm]
            exact hxr
        · by_cases hlt : h0 < 3
          · rw [hk, hueToRGB_seg2 (by linarith) (by linarith)]
            rw [← hymax]
            exact hyr
          · have h3e : h0 = 3 := le_antisymm hb3 (not_lt.mp hlt)
            rw [hk, h3e, hueToRGB_seg3 (by norm_num) (by norm_num)]
            linear_combination (-255 : ℝ) * hymax + hyr
        · by_cases hzx : z < x
          · have h02 : h0 < 2 := by
              rw [h0eq]
              have : (z - x) / (mx - mn) < 0 :=
                div_neg_of_neg_of_pos (by linarith) hdelpos
              linarith
            rw [hk, hueToRGB_add_one (by linarith) (by linarith),
              hueToRGB_seg4 (by linarith) (by linarith)]
            have hm : mn = z := by rw [hmnxz, min_eq_right (le_of_lt hzx)]
            rw [hm]
            exact hzr
          · have h02 : 2 ≤ h0 := by
              rw [h0eq]
              have : 0 ≤ (z - x) / (mx - mn) :=
                div_nonneg (by linarith [not_lt.mp hzx]) (le_of_lt hdelpos)
              linarith
            have hm : mn = x := by rw [hmnxz, min_eq_left (not_lt.mp hzx)]
            by_cases hlt : h0 < 3
            · rw [hk, hueToRGB_seg1 (by linarith) (by linarith)]
              linear_combination (255 : ℝ) * hprod + 255 * hm + hzr
            · have h3e : h0 = 3 := le_antisymm hb3 (not_lt.mp hlt)
              rw [hk, h3e, hueToRGB_seg2 (by norm_num) (by norm_num)]
              have h' := hprod
              rw [h3e] at h'
              linear_combination (255 : ℝ) * h' + 255 * hm + hzr
      · -- blue sector
        have hzmax : z = mx := by
          have h' := max_choice x (max y z)
          rw [← hmxdef] at h'
          rcases h' with h | h
          · exact absurd h.symm hxmax
          · have h2 := max_choice y z
            rcases h2 with h2 | h2
            · rw [h2] at h
              exact absurd h.symm hymax
            · rw [h2] at h
              exact h.symm
        have h0eq : h0 = 4 + (x - y) / (mx - mn) := by
          rw [h0def, if_neg hxmax, if_neg hymax]
        have hprod : h0 * (mx - mn) = 4 * (mx - mn) + (x - y) := by
          rw [h0eq]; field_simp
          try ring
        have hb5 : h0 ≤ 5 := by
          rw [h0eq]
          have : (x - y) / (mx - mn) ≤ 1 := by rw [div_le_one hdelpos]; linarith
          linarith
        have hb3 : 3 ≤ h0 := by
          rw [h0eq]
          have : -1 ≤ (x - y) / (mx - mn) := by rw [le_div_iff₀ hdelpos]; linarith
          linarith
        have hsgn : ¬h0 * 60 < 0 := by push_neg; linarith
        have hH : H = h0 * 60 := by rw [hHdef, if_neg hsgn]
        have hk : H / 360 = h0 / 6 := by rw [hH]; ring
        have hyzz : y ≤ z := by rw [hzmax]; exact hymx
        have hmnxy : mn = min x y := by rw [hmndef, min_eq_left hyzz]
        refine ⟨?_, ?_, ?_⟩
        · by_cases hxy : x ≤ y
          · have h04 : h0 ≤ 4 := by
              rw [h0eq]
              have : (x - y) / (mx - mn) ≤ 0 :=
                div_nonpos_of_nonpos_of_nonneg (by linarith) (le_of_lt hdelpos)
              linarith
            rw [hk, hueToRGB_seg4 (by linarith) (by linarith)]
            have hm : mn = x := by rw [hmnxy, min_eq_left hxy]
            rw [hm]
            exact hxr
          · have h04 : 4 < h0 := by
              rw [h0eq]
              have : 0 < (x - y) / (mx - mn) :=
                div_pos (by linarith [not_le.mp hxy]) hdelpos
              linarith
            have hm : mn = y := by rw [hmnxy, min_eq_right (le_of_lt (not_le.mp hxy))]
            by_cases hlt : h0 < 5
            · rw [hk, hueToRGB_sub_one (by linarith) (by linarith),
                hueToRGB_seg1 (by linarith) (by linarith)]
              linear_combination (255 : ℝ) * hprod + 255 * hm + hxr
            · have h5e : h0 = 5 := le_antisymm hb5 (not_lt.mp hlt)
              rw [hk, h5e, hueToRGB_sub_one (by norm_num) (by norm_num),
                hueToRGB_seg2 (by norm_num) (by norm_num)]
              have h' := hprod
              rw [h5e] at h'
              linear_combination (255 : ℝ) * h' + 255 * hm + hxr
        · by_cases hxy : x ≤ y
          · have h04 : h0 ≤ 4 := by
              rw [h0eq]
              have : (x - y) / (mx - mn) ≤ 0 :=
                div_nonpos_of_nonpos_of_nonneg (by linarith) (le_of_lt hdelpos)
              linarith
            by_cases hlt : h0 < 4
            · rw [hk, hueToRGB_seg3 (by linarith) (by linarith)]
              have hm : mn = x := by rw [hmnxy, min_eq_left hxy]
              linear_combination (-255 : ℝ) * hprod + 255 * hm + hyr
            · have h4e : h0 = 4 := le_antisymm h04 (not_lt.mp hlt)
              rw [hk, h4e, hueToRGB_seg4 (by norm_num) (by norm_num)]
              have hm : mn = x := by rw [hmnxy, min_eq_left hxy]
              have h' := hprod
              rw [h4e] at h'
              have hxey : x = y := by linarith
              rw [hm, hxey]
              exact hyr
          · have h04 : 4 < h0 := by
              rw [h0eq]
              have : 0 < (x - y) / (mx - mn) :=
                div_pos (by linarith [not_le.mp hxy]) hdelpos
              linarith
            rw [hk, hueToRGB_seg4 (by linarith) (by linarith)]
            have hm : mn = y := by rw [hmnxy, min_eq_right (le_of_lt (not_le.mp hxy))]
            rw [hm]
            exact hyr
        · by_cases hlt : h0 < 5
          · rw [hk, hueToRGB_seg2 (by linarith) (by linarith)]
            rw [← hzmax]
            exact hzr
          · have h5e : h0 = 5 := le_antisymm hb5 (not_lt.mp hlt)
            rw [hk, h5e, hueToRGB_seg3 (by norm_num) (by norm_num)]
            linear_combination (-255 : ℝ) * hzmax + hzr


/-- **C6.**  For every RGB color with channels in `[0, 255]`, converting to
HSL and back reproduces each channel to within ±1 (here exactly, by
`hslToRGB_rgbToHSL_exact`). -/
theorem C6_hsl_round_trip (r g b : ℝ)
    (hr0 : 0 ≤ r) (hr1 : r ≤ 255) (hg0 : 0 ≤ g) (hg1 : g ≤ 255)
    (hb0 : 0 ≤ b) (hb1 : b ≤ 255) :
    |(hslToRGB (rgbToHSL r g b).1 (rgbToHSL r g b).2.1 (rgbToHSL r g b).2.2).1 - r| ≤ 1 ∧
    |(hslToRGB (rgbToHSL r g b).1 (rgbToHSL r g b).2.1 (rgbToHSL r g b).2.2).2.1 - g| ≤ 1 ∧
    |(hslToRGB (rgbToHSL r g b).1 (rgbToHSL r g b).2.1 (rgbToHSL r g b).2.2).2.2 - b| ≤ 1 := by
  rw [hslToRGB_rgbToHSL_exact r g b hr0 hr1 hg0 hg1 hb0 hb1]
  norm_num

/-- **C6 witness.**  The round-trip bound instantiated at the concrete color
(30, 60, 90). -/
theorem C6_hsl_round_trip_witness :
    |(hslToRGB (rgbToHSL 30 60 90).1 (rgbToHSL 30 60 90).2.1
        (rgbToHSL 30 60 90).2.2).1 - 30| ≤ 1 ∧
    |(hslToRGB (rgbToHSL 30 60 90).1 (rgbToHSL 30 60 90).2.1
        (rgbToHSL 30 60 90).2.2).2.1 - 60| ≤ 1 ∧
    |(hslToRGB (rgbToHSL 30 60 90).1 (rgbToHSL 30 60 90).2.1
        (rgbToHSL 30 60 90).2.2).2.2 - 90| ≤ 1 :=
  C6_hsl_round_trip 30 60 90 (by norm_num) (by norm_num) (by norm_num)
    (by norm_num) (by norm_num) (by norm_num)

end ColorMCP
